import Mathlib

/-!
# PM Bot Platform (workers.js): verification development

A shallow embedding of `src/workers.js`.

* The key-value store `env.PMBOT` is a list of writes, newest first.  A value is the
  JSON reading of the stored text (`Val`).  `put` with `expirationTtl` stamps the
  entry with the absolute expiry `now + ttl`; a read at or after that instant sees
  the key as absent.
* Every handler is a pure function of the environment bindings, the answers of the
  outside world (`Telegram`, Turnstile, the fraud list, `uuidv4`, the clock), the
  time of the invocation, the store and the request.  It returns the HTTP response,
  the new store and the list of outbound calls in program order.
* `none` stands for an invocation that ends in an uncaught JavaScript exception
  (`JSON.parse` of the text `NaN`, a property read on `undefined`, an assignment to
  a property of a primitive in module code, a `put` whose TTL the store refuses).  On every path of the three handlers
  such an exception is raised before the first store write and before the first
  message is sent, so nothing is lost by not recording a partial outcome.  The
  administrator paths also give `none` when `platform:settings` or
  `stats:platform:total_bots` holds a value of a kind the program never writes there
  (see `loadConfig` and `getAdminDashboardUI`); the embedding does not follow those.
* Work handed to `ctx.waitUntil` is run at the place where it is handed over.
* Chat and message identifiers are integers; `toString` is their decimal text, as
  produced by `.toString()` and by template literals.
* The numbers the program computes with (counters, days and seconds of the verification
  TTL) are IEEE doubles that hold integers: `JsNum`, with `toDouble` rounding an exact
  integer to the nearest double, ties to even, and `jsString` printing a number the way
  `String(x)` does, exponent notation from `1e21` on.
* The store refuses an `expirationTtl` that is not an integer from 60 seconds up to the
  largest 32-bit integer: `put` throws and writes nothing (`Store.putTtl`).
-/

namespace PMBot

/-! ## JavaScript string helpers -/

/-- `s.startsWith(p)`. -/
def startsWith (s p : String) : Bool := p.data.isPrefixOf s.data

/-- `s.split(c)` for a one-character separator, on character lists. -/
def splitChars (c : Char) : List Char → List (List Char)
  | [] => [[]]
  | x :: xs =>
    if x = c then [] :: splitChars c xs
    else
      match splitChars c xs with
      | [] => [[x]]
      | p :: ps => (x :: p) :: ps

/-- `s.split(c)` for a one-character separator. -/
def jsSplit (s : String) (c : Char) : List String := (splitChars c s.data).map String.mk

/-- Substring search on character lists. -/
def includesChars (needle : List Char) : List Char → Bool
  | [] => needle.isPrefixOf []
  | x :: xs => needle.isPrefixOf (x :: xs) || includesChars needle xs

/-- `hay.includes(needle)`. -/
def includes (hay needle : String) : Bool := includesChars needle.data hay.data

/-- Truthiness of a string that may be `null`: `null` and the empty string are falsy. -/
def truthyStr : Option String → Bool
  | none => false
  | some s => decide (s ≠ "")

/-- `x || d` for a string `x` that may be missing. -/
def orElse (x : Option String) (d : String) : String :=
  match x with
  | none => d
  | some s => if s = "" then d else s

/-! ## JavaScript numbers -/

/-- White space and line terminators, as removed by `trim` and skipped by `parseInt`. -/
def isJsSpace (c : Char) : Bool :=
  let n := c.toNat
  n = 9 || n = 10 || n = 11 || n = 12 || n = 13 || n = 32 || n = 160 || n = 5760 ||
  (8192 ≤ n && n ≤ 8202) || n = 8232 || n = 8233 || n = 8239 || n = 8287 ||
  n = 12288 || n = 65279

/-- A JavaScript number that holds an integer, `NaN`, or one of the two infinities. -/
inductive JsNum where
  | fin (n : Int)
  | nan
  | inf (negative : Bool)
  deriving DecidableEq, Repr

/-- The number of binary digits of a natural number below `2 ^ fuel`. -/
def bitLength : Nat → Nat → Nat
  | 0, _ => 0
  | fuel + 1, m => if m = 0 then 0 else bitLength fuel (m / 2) + 1

/-- The double nearest to a natural number, ties to even; `none` when that is `Infinity`.
Up to `2 ^ 53` every natural number is a double.  Above, `q` is the number made of the 53
leading bits and `sh` the count of the bits dropped; the result is finite when it stays
below `2 ^ 1024`, that is when `sh` is at most 970, or 971 with `q1` still of 53 bits. -/
def roundNat (m : Nat) : Option Nat :=
  if m ≤ 2 ^ 53 then some m
  else
    let sh := bitLength 1200 m - 53
    let q := m / 2 ^ sh
    let r := m % 2 ^ sh
    let q1 := if 2 ^ (sh - 1) < r ∨ (r = 2 ^ (sh - 1) ∧ q % 2 = 1) then q + 1 else q
    if sh ≤ 970 ∨ (sh = 971 ∧ q1 < 2 ^ 53) then some (q1 * 2 ^ sh) else none

/-- The double nearest to an integer. -/
def toDouble (n : Int) : JsNum :=
  match roundNat n.natAbs with
  | some v => JsNum.fin (if n < 0 then - (v : Int) else (v : Int))
  | none => JsNum.inf (decide (n < 0))

/-- `x + 1` in doubles. -/
def JsNum.add1 : JsNum → JsNum
  | JsNum.fin d => toDouble (d + 1)
  | JsNum.nan => JsNum.nan
  | JsNum.inf b => JsNum.inf b

/-- `x * k` in doubles, for a positive integer constant `k`. -/
def JsNum.times (x : JsNum) (k : Nat) : JsNum :=
  match x with
  | JsNum.fin d => toDouble (d * k)
  | JsNum.nan => JsNum.nan
  | JsNum.inf b => JsNum.inf b

/-- The number of decimal digits of a natural number. -/
def decLen (m : Nat) : Nat := (Nat.toDigits 10 m).length

/-- The multiple of `10 ^ (len - k)`, if any, that has at most `k` significant digits and
reads back as the double `d`; of two, the one nearer to `d`, and the even one on a tie. -/
def shortestAt (d len k : Nat) : Option Nat :=
  let p := 10 ^ (len - k)
  let lo := d / p * p
  let hi := lo + p
  let okLo := decide (roundNat lo = some d)
  let okHi := decide (roundNat hi = some d)
  if okLo && okHi then
    if d - lo < hi - d then some lo
    else if hi - d < d - lo then some hi
    else if (d / p) % 2 = 0 then some lo else some hi
  else if okLo then some lo
  else if okHi then some hi
  else none

/-- The decimal number with the fewest significant digits that reads back as the double
`d`: the digits `Number::toString` prints, followed by zeros. -/
def shortest (d : Nat) : Nat :=
  ((List.range (decLen d)).findSome? (fun i => shortestAt d (decLen d) (i + 1))).getD d

/-- A digit list without its trailing zeros. -/
def dropZeros : List Char → List Char
  | [] => []
  | c :: cs =>
    match dropZeros cs with
    | [] => if c = '0' then [] else [c]
    | rest => c :: rest

/-- `String(d)` for a double `d` that holds a natural number: the decimal text below
`1e21` (for a number above `2 ^ 53` the shortest digits that read back as `d`, followed by
zeros), exponent notation from `1e21` on. -/
def natText (d : Nat) : String :=
  if d ≤ 2 ^ 53 then toString d
  else
    let v := shortest d
    if v < 10 ^ 21 then toString v
    else
      match dropZeros (Nat.toDigits 10 v) with
      | [] => "0"
      | [a] => String.mk [a] ++ "e+" ++ toString (decLen v - 1)
      | a :: rest => String.mk (a :: '.' :: rest) ++ "e+" ++ toString (decLen v - 1)

/-- `String(x)`, the text of a number in a template literal or as a stored value. -/
def jsString : JsNum → String
  | JsNum.fin d => if d < 0 then "-" ++ natText d.natAbs else natText d.natAbs
  | JsNum.nan => "NaN"
  | JsNum.inf false => "Infinity"
  | JsNum.inf true => "-Infinity"

/-- The value of a digit in a radix, if the character is one. -/
def digitVal (radix : Nat) (c : Char) : Option Nat :=
  let n := c.toNat
  let v :=
    if 48 ≤ n ∧ n ≤ 57 then n - 48
    else if 97 ≤ n ∧ n ≤ 122 then n - 87
    else if 65 ≤ n ∧ n ≤ 90 then n - 55
    else 36
  if v < radix then some v else none

/-- The longest run of leading digits of a radix, as values. -/
def leadingDigits (radix : Nat) : List Char → List Nat
  | [] => []
  | c :: cs =>
    match digitVal radix c with
    | some v => v :: leadingDigits radix cs
    | none => []

/-- The number written by a list of digit values. -/
def digitsValue (radix : Nat) (ds : List Nat) : Nat :=
  ds.foldl (fun acc d => acc * radix + d) 0

/-- `parseInt` on the characters that follow the sign: the exact value of the digits. -/
def parseUnsigned (cs : List Char) : Option Nat :=
  match cs with
  | '0' :: 'x' :: rest =>
    match leadingDigits 16 rest with
    | [] => none
    | ds => some (digitsValue 16 ds)
  | '0' :: 'X' :: rest =>
    match leadingDigits 16 rest with
    | [] => none
    | ds => some (digitsValue 16 ds)
  | _ =>
    match leadingDigits 10 cs with
    | [] => none
    | ds => some (digitsValue 10 ds)

/-- `parseInt` after the sign: `NaN` without digits, else the double nearest to the value
of the digits. -/
def parseSigned (negative : Bool) (cs : List Char) : JsNum :=
  match parseUnsigned cs with
  | none => JsNum.nan
  | some v => toDouble (if negative then - (v : Int) else (v : Int))

/-- `parseInt(s)` without a radix. -/
def parseInt (s : String) : JsNum :=
  match s.data.dropWhile isJsSpace with
  | '-' :: rest => parseSigned true rest
  | '+' :: rest => parseSigned false rest
  | cs => parseSigned false cs

/-- `Math.round(n / 86400)` for a double `n` that holds an integer: the quotient is first
rounded to the nearest double (53 significant bits, ties to even), then to the nearest
integer, a half going up. -/
def roundQuot (n : Int) : Int :=
  if n = 0 then 0
  else
    let a := n.natAbs * 2 ^ 80
    let sh := bitLength 1200 (a / 86400) - 53
    let den := 86400 * 2 ^ sh
    let q := a / den
    let r := a % den
    let q1 : Int := if den < 2 * r ∨ (2 * r = den ∧ q % 2 = 1) then q + 1 else q
    let m : Int := if n < 0 then - q1 else q1
    if 80 ≤ sh then m * 2 ^ (sh - 80)
    else Int.fdiv (2 * m + 2 ^ (80 - sh)) (2 ^ (80 - sh + 1))

/-! ## Configuration constants -/

/-- `DEFAULT_TTL = 30 * 24 * 60 * 60`. -/
def DEFAULT_TTL : Int := 30 * 24 * 60 * 60

/-- The expiry of a correlation mapping, `60 * 60 * 48`. -/
def MAP_TTL : Int := 60 * 60 * 48

/-! ## Stored values -/

/-- The record written under `platform:route:{routeId}` (`botConfig`).  `enable_verify`
and `welcome_msg` may be missing from a stored record. -/
structure BotConfig where
  token : String
  owner_id : Int
  secret : String
  bot_username : String
  created_at : Int
  enable_verify : Option Bool
  welcome_msg : Option String
  deriving DecidableEq, Repr

/-- The number held by `verify_ttl`: a double that holds the integer `n`, `NaN` or an
infinity (in memory, after `parseInt` failed or the product overflowed), or `null` (what
`JSON.stringify` makes of `NaN` and of the infinities). -/
inductive Ttl where
  | secs (n : Int)
  | nan
  | null
  | inf (negative : Bool)
  deriving DecidableEq, Repr

/-- A computed number as a `verify_ttl`. -/
def Ttl.ofNum : JsNum → Ttl
  | JsNum.fin n => Ttl.secs n
  | JsNum.nan => Ttl.nan
  | JsNum.inf b => Ttl.inf b

/-- The object stored under `platform:settings`, by the values its fields parse to. -/
structure PlatformConfig where
  enable_new_users : Bool
  verify_ttl : Ttl
  deriving DecidableEq, Repr

/-- A stored text, by what it reads as: `true`/`false`, the text of a number, the text
`NaN`, or the JSON of one of the three objects the program stores.  `num n` is the decimal
text of `n` when `n` is below `10 ^ 21` in magnitude, and the text `String` gives the
double nearest to `n` otherwise (exponent notation, or the word `Infinity`). -/
inductive Val where
  | bool (b : Bool)
  | num (n : Int)
  | nan
  | settings (c : PlatformConfig)
  | route (c : BotConfig)
  | user (c : BotConfig) (routeId : String)
  deriving DecidableEq, Repr

/-- One stored entry: the value and the absolute time at which it expires. -/
structure Entry where
  val : Val
  expiration : Option Int
  deriving DecidableEq, Repr

/-- The key-value store: the writes made so far, newest first. -/
abbrev Store := List (String × Entry)

/-- An entry is readable at `now` while its expiry has not been reached. -/
def Entry.live (e : Entry) (now : Int) : Bool :=
  match e.expiration with
  | none => true
  | some t => decide (now < t)

/-- `env.PMBOT.get(k)`: the newest write to `k`, unless it has expired. -/
def Store.get (s : Store) (now : Int) (k : String) : Option Val :=
  match s.lookup k with
  | none => none
  | some e => if e.live now then some e.val else none

/-- The write made by `env.PMBOT.put(k, v)` and, once the store has accepted the TTL, by
`env.PMBOT.put(k, v, { expirationTtl: ttl })`.  The two constant TTLs of the program,
`DEFAULT_TTL` and `MAP_TTL`, are accepted (see `ttlAccepted`), so the calls that pass them
are written with `put`. -/
def Store.put (s : Store) (now : Int) (k : String) (v : Val) (ttl : Option Int) : Store :=
  (k, { val := v, expiration := ttl.map (fun t => now + t) }) :: s

/-- The store accepts an `expirationTtl` from 60 seconds up to the largest 32-bit integer,
the range of the option. -/
def ttlAccepted (ttl : Int) : Bool := decide (60 ≤ ttl) && decide (ttl ≤ 2147483647)

/-- `env.PMBOT.put(k, v, { expirationTtl: ttl })` for a computed `ttl`: `none` when the
store refuses the TTL, the call throws and nothing is written. -/
def Store.putTtl (s : Store) (now : Int) (k : String) (v : Val) (ttl : JsNum) : Option Store :=
  match ttl with
  | JsNum.fin t => if ttlAccepted t then some (s.put now k v (some t)) else none
  | JsNum.nan => none
  | JsNum.inf _ => none

/-- The stored text of `num n` is the word `Infinity` or `-Infinity`, which `JSON.parse`
rejects and `parseInt` reads as `NaN`. -/
def overflows (n : Int) : Bool := (roundNat n.natAbs).isNone

/-- Truthiness of `get(k, { type: "json" })`; `none` when `JSON.parse` throws. -/
def truthyJson : Option Val → Option Bool
  | none => some false
  | some (Val.bool b) => some b
  | some (Val.num n) => if overflows n then none else some (decide (n ≠ 0))
  | some Val.nan => none
  | some (Val.settings _) => some true
  | some (Val.route _) => some true
  | some (Val.user _ _) => some true

/-- The text a template literal makes of a value read with `{ type: "json" }`. -/
def Val.render : Val → String
  | Val.bool true => "true"
  | Val.bool false => "false"
  | Val.num n => if n.natAbs ≤ 2 ^ 53 then toString n else jsString (toDouble n)
  | Val.nan => "NaN"
  | Val.settings _ => "[object Object]"
  | Val.route _ => "[object Object]"
  | Val.user _ _ => "[object Object]"

/-- The stored text of `num n`. -/
def numText (n : Int) : String :=
  if n.natAbs < 10 ^ 21 then toString n else jsString (toDouble n)

/-- The value stored by `put(key, x)` for a number `x`: the text `String(x)`. -/
def Val.ofNumber : JsNum → Val
  | JsNum.fin r =>
    if r.natAbs ≤ 2 ^ 53 then Val.num r
    else if shortest r.natAbs < 10 ^ 21 then
      Val.num (if r < 0 then - (shortest r.natAbs : Int) else (shortest r.natAbs : Int))
    else Val.num r
  | JsNum.nan => Val.nan
  | JsNum.inf false => Val.num (2 ^ 1024)
  | JsNum.inf true => Val.num (- 2 ^ 1024)

/-- `parseInt(text)` of a stored text. -/
def storedInt : Val → JsNum
  | Val.num n => if n.natAbs < 10 ^ 21 then toDouble n else parseInt (jsString (toDouble n))
  | _ => JsNum.nan

/-- `JSON.stringify` of a number: `NaN` and the infinities are written as `null`. -/
def Ttl.stored : Ttl → Ttl
  | Ttl.secs n => Ttl.secs n
  | Ttl.nan => Ttl.null
  | Ttl.null => Ttl.null
  | Ttl.inf _ => Ttl.null

/-- `JSON.stringify(platformConfig)` as a stored value. -/
def PlatformConfig.stored (c : PlatformConfig) : Val :=
  Val.settings { enable_new_users := c.enable_new_users, verify_ttl := c.verify_ttl.stored }

/-! ## Store keys -/

/-- The key `platform:route:{routeId}`. -/
def routeKey (routeId : String) : String := "platform:route:" ++ routeId

/-- The key `platform:user:{chatId}`. -/
def userKey (chatId : Int) : String := "platform:user:" ++ toString chatId

/-- The key `platform:settings`. -/
def settingsKey : String := "platform:settings"

/-- The key `stats:platform:total_bots`. -/
def totalBotsKey : String := "stats:platform:total_bots"

/-- The key `stats:{routeId}:users`. -/
def usersKey (routeId : String) : String := "stats:" ++ routeId ++ ":users"

/-- The key `stats:{routeId}:msgs`. -/
def msgsKey (routeId : String) : String := "stats:" ++ routeId ++ ":msgs"

/-- The key `isblocked-{id}`, for the text of an identifier. -/
def blockedKey (id : String) : String := "isblocked-" ++ id

/-- The key `msg-map-{message_id}`. -/
def mapKey (messageId : Int) : String := "msg-map-" ++ toString messageId

/-- The key `verified-{routeId}-{uid}`, for the text of the visitor identifier. -/
def verifiedKey (routeId uid : String) : String := "verified-" ++ routeId ++ "-" ++ uid

/-- The old key `verified-{uid}`. -/
def legacyVerifiedKey (uid : String) : String := "verified-" ++ uid

/-! ## Outbound calls and responses -/

/-- What a button of an inline keyboard does. -/
inductive ButtonAction where
  | callback_data (data : String)
  | url (url : String)
  | web_app (url : String)
  deriving DecidableEq, Repr

/-- One button of an inline keyboard. -/
structure Button where
  text : String
  action : ButtonAction
  deriving DecidableEq, Repr

/-- The options of a message: `parse_mode` and the rows of `reply_markup.inline_keyboard`. -/
structure Options where
  parse_mode : Option String
  keyboard : List (List Button)
  deriving DecidableEq, Repr

/-- A call made to the outside world.  The recipient of a message is the text of the
chat identifier. -/
inductive Call where
  | sendMessage (token chat text : String) (options : Options)
  | copyMessage (token toChat fromChat : String) (messageId : Int) (options : Options)
  | answerCallbackQuery (token id : String) (text : Option String) (showAlert : Bool)
  | editMessageText (token chat : String) (messageId : Int) (text : String) (options : Options)
  | setMyCommands (token : String)
  | getMe (token : String)
  | setWebhook (token url secretToken : String)
  | siteverify (secretKey response : String) (remoteip : Option String)
  | fetchFraudDb
  deriving DecidableEq, Repr

/-- The HTTP response of a handler: a text body with a status, or the JSON body
with the single field `success`. -/
inductive Response where
  | text (body : String) (status : Nat)
  | success (b : Bool)
  deriving DecidableEq, Repr

/-- `new Response('Ok')`. -/
def Response.ok : Response := Response.text "Ok" 200

/-- What one invocation leaves behind. -/
structure Outcome where
  resp : Response
  store : Store
  calls : List Call
  deriving DecidableEq, Repr

/-- The environment bindings of the worker. -/
structure Env where
  ENV_BOT_SECRET : String
  ENV_BOT_TOKEN : String
  ENV_ADMIN_UID : String
  ENV_TURNSTILE_SITE_KEY : String
  ENV_TURNSTILE_SECRET_KEY : String
  deriving DecidableEq, Repr

/-- No options. -/
def noOptions : Options := { parse_mode := none, keyboard := [] }

/-- The options `{ parse_mode: 'Markdown' }`. -/
def markdown : Options := { parse_mode := some "Markdown", keyboard := [] }

/-! ## Verification submission (`handleVerifySubmit`) -/

/-- The form fields and the header read by `handleVerifySubmit`. -/
structure VerifyForm where
  token : Option String
  uid : Option String
  routeId : Option String
  ip : Option String
  deriving DecidableEq, Repr

/-- The text sent to the visitor after a successful verification. -/
def VERIFIED_TEXT : String :=
  "✅ **验证成功！**\n\n系统正在同步数据，请稍等 **5秒** 后再发送消息。\n_(若消息发送失败，请等待几秒后重试)_"

/-- The verification TTL chosen when the request carries a routeId:
`platformSettings && platformSettings.verify_ttl` replaces the default when truthy.
`none` when `JSON.parse` throws. -/
def effectiveTtl (settings : Option Val) : Option JsNum :=
  match settings with
  | some Val.nan => none
  | some (Val.num n) => if overflows n then none else some (JsNum.fin DEFAULT_TTL)
  | some (Val.settings c) =>
    match c.verify_ttl with
    | Ttl.secs n => if n ≠ 0 then some (JsNum.fin n) else some (JsNum.fin DEFAULT_TTL)
    | Ttl.nan => some (JsNum.fin DEFAULT_TTL)
    | Ttl.null => some (JsNum.fin DEFAULT_TTL)
    | Ttl.inf b => some (JsNum.inf b)
  | _ => some (JsNum.fin DEFAULT_TTL)

/-- The token read from the stored route record, `JSON.parse(configStr).token`;
the outer `none` when `JSON.parse` throws, the inner `none` when there is no token. -/
def tokenToSend (config : Option Val) : Option (Option String) :=
  match config with
  | some Val.nan => none
  | some (Val.num n) => if overflows n then none else some none
  | some (Val.route c) => some (some c.token)
  | some (Val.user c _) => some (some c.token)
  | _ => some none

/-- `handleVerifySubmit(request, env)`; `trSuccess` is the field `success` of the
answer of the Turnstile service. -/
def handleVerifySubmit (env : Env) (trSuccess : Bool) (now : Int) (s : Store)
    (f : VerifyForm) : Option Outcome :=
  match f.token, f.uid with
  | some token, some uid =>
    if token = "" ∨ uid = "" then
      some { resp := Response.success false, store := s, calls := [] }
    else
      let verify := Call.siteverify env.ENV_TURNSTILE_SECRET_KEY token f.ip
      if trSuccess then
        match f.routeId with
        | some routeId =>
          if routeId ≠ "" then
            match effectiveTtl (s.get now settingsKey), tokenToSend (s.get now (routeKey routeId)) with
            | some ttl, some tok =>
              match s.putTtl now (verifiedKey routeId uid) (Val.bool true) ttl with
              | none => none
              | some s1 =>
                let notice :=
                  if truthyStr tok then
                    [Call.sendMessage (tok.getD "") uid VERIFIED_TEXT markdown]
                  else []
                some { resp := Response.success true, store := s1, calls := verify :: notice }
            | _, _ => none
          else
            some { resp := Response.success true,
                   store := s.put now (legacyVerifiedKey uid) (Val.bool true) (some DEFAULT_TTL),
                   calls := [verify] }
        | none =>
          some { resp := Response.success true,
                 store := s.put now (legacyVerifiedKey uid) (Val.bool true) (some DEFAULT_TTL),
                 calls := [verify] }
      else
        some { resp := Response.success false, store := s, calls := [verify] }
  | _, _ => some { resp := Response.success false, store := s, calls := [] }

/-- The gate read of `handleManagedBotWebhook`:
`await env.PMBOT.get("verified-{routeId}-{chatId}", { type: "json" })`, by truthiness. -/
def isVerified (s : Store) (now : Int) (routeId : String) (chatId : Int) : Option Bool :=
  truthyJson (s.get now (verifiedKey routeId (toString chatId)))

/-! ## Inbound updates -/

/-- The fields of `msg.from` that the program reads. -/
structure Sender where
  first_name : Option String
  last_name : Option String
  username : Option String
  deriving DecidableEq, Repr

/-- The fields of `update.message` that the program reads: `chat_id` is `msg.chat.id`,
`sender` is `msg.from`, `reply_to` is `msg.reply_to_message.message_id` when the
message is a reply. -/
structure Message where
  message_id : Int
  chat_id : Int
  text : Option String
  sender : Sender
  reply_to : Option Int
  deriving DecidableEq, Repr

/-- The fields of `update.callback_query` that the program reads: `chat_id` is
`cq.message.chat.id` and `message_id` is `cq.message.message_id`. -/
structure CallbackQuery where
  id : String
  data : String
  chat_id : Int
  message_id : Int
  deriving DecidableEq, Repr

/-- The body of a webhook request. -/
structure Update where
  callback_query : Option CallbackQuery
  message : Option Message
  deriving DecidableEq, Repr

/-- A webhook request: the header `X-Telegram-Bot-Api-Secret-Token`, the origin of
the request URL and the parsed body. -/
structure Request where
  secretHeader : Option String
  origin : String
  update : Update
  deriving DecidableEq, Repr

/-- The answer of `copyMessage`: `copyResp.ok` and `copyResp.result.message_id`. -/
structure CopyResp where
  ok : Bool
  message_id : Int
  deriving DecidableEq, Repr

/-! ## More JavaScript helpers -/

/-- `s.trim()` on character lists. -/
def trimChars (cs : List Char) : List Char :=
  ((cs.dropWhile isJsSpace).reverse.dropWhile isJsSpace).reverse

/-- `s.trim()`. -/
def jsTrim (s : String) : String := String.mk (trimChars s.data)

/-- An upper-case hexadecimal digit. -/
def hexDigit (n : Nat) : Char :=
  if n < 10 then Char.ofNat (48 + n) else Char.ofNat (55 + n)

/-- The UTF-8 bytes of a code point. -/
def utf8Bytes (n : Nat) : List Nat :=
  if n < 128 then [n]
  else if n < 2048 then [192 + n / 64, 128 + n % 64]
  else if n < 65536 then [224 + n / 4096, 128 + (n / 64) % 64, 128 + n % 64]
  else [240 + n / 262144, 128 + (n / 4096) % 64, 128 + (n / 64) % 64, 128 + n % 64]

/-- The characters `encodeURIComponent` leaves as they are. -/
def isUnreserved (c : Char) : Bool :=
  c.isAlphanum || c = '-' || c = '_' || c = '.' || c = '!' || c = '~' || c = '*' ||
  c.toNat = 39 || c = '(' || c = ')'

/-- `encodeURIComponent` of one character. -/
def encodeChar (c : Char) : List Char :=
  if isUnreserved c then [c]
  else (utf8Bytes c.toNat).flatMap (fun b => ['%', hexDigit (b / 16), hexDigit (b % 16)])

/-- `encodeURIComponent(s)`. -/
def encodeURIComponent (s : String) : String := String.mk (s.data.flatMap encodeChar)

/-! ## Texts -/

/-- `OWNER_HELP_TEXT`. -/
def OWNER_HELP_TEXT : String :=
  "\n👋 **管理员您好！**\n\n您的私聊机器人正在运行中。\n\n📝 **如何使用？**\n\n" ++
  "1. **接收消息**\n   当有人给此机器人发消息时，您会立刻收到转发。\n\n" ++
  "2. **回复用户**\n   直接**回复 (左滑消息)** 转发过来的消息，即可发送文字给对方。\n\n" ++
  "3. **管理用户**\n   • **屏蔽/解封**：点击消息下方的按钮，或回复 `/block` / `/unblock`。\n" ++
  "   • **查看资料**：点击消息下方的用户昵称。\n\n" ++
  "💡 *提示：所有新用户在第一次联系您时，都需要通过人机验证，有效拦截广告。*\n"

/-- The notice sent to a blocked visitor. -/
def BLOCK_NOTICE : String := "🚫 **您已被管理员屏蔽**"

/-- The welcome text of a route that has no `welcome_msg`. -/
def DEFAULT_WELCOME : String :=
  "\n👋 **您好！这里是私聊机器人**\n\n如果您有任何事，请直接发送消息。\n我会收到并尽快回复。\n\n" ++
  "⚠️ *请注意：所有消息均会被记录，请勿发送垃圾广告。*\n    "

/-- The text of the challenge message. -/
def CHALLENGE_TEXT : String :=
  "🛡 <b>安全验证 (Security Check)</b>\n\n为了防止垃圾信息，请点击下方按钮进行验证。\n" ++
  "Please verify you are human to continue."

/-! ## Managed bot webhook (`handleManagedBotWebhook`) -/

/-- The counter step `parseInt((await get(key)) || 0) + 1`, as the value then stored. -/
def counterNext : Option Val → Val
  | none => Val.num 1
  | some v => Val.ofNumber (storedInt v).add1

/-- The body handed to `ctx.waitUntil` for a counter: read, then write one more. -/
def increment (s : Store) (now : Int) (k : String) : Store :=
  s.put now k (counterNext (s.get now k)) none

/-- `isFraud(id)`, given what the fetch of the list gave (`none` when it failed). -/
def isFraud (fraudDb : Option String) (id : Int) : Bool :=
  match fraudDb with
  | none => false
  | some db => includes db (toString id)

/-- The link of the challenge page built for a visitor. -/
def verifyLink (origin : String) (chatId : Int) (routeId : String) (sender : Sender) : String :=
  let firstName := orElse sender.first_name "User"
  let username := if truthyStr sender.username then "(@" ++ sender.username.getD "" ++ ")" else ""
  origin ++ "/verify?uid=" ++ toString chatId ++ "&routeId=" ++ routeId ++
    "&name=" ++ encodeURIComponent firstName ++ "&user=" ++ encodeURIComponent username

/-- The challenge message sent to an unverified visitor. -/
def challengeCall (token origin : String) (chatId : Int) (routeId : String)
    (sender : Sender) : Call :=
  Call.sendMessage token (toString chatId) CHALLENGE_TEXT
    { parse_mode := some "HTML",
      keyboard := [[{ text := "🤖 点击验证 (Verify)",
                      action := ButtonAction.web_app (verifyLink origin chatId routeId sender) }]] }

/-- The name shown on the relayed copy. -/
def userDisplayName (sender : Sender) : String :=
  let full := jsTrim (orElse sender.first_name "" ++ " " ++ orElse sender.last_name "")
  if full = "" then "User" else full

/-- The relay of a visitor message to the owner, `copyMessage` with its buttons. -/
def relayCall (token ownerId : String) (msg : Message) : Call :=
  let chat := toString msg.chat_id
  Call.copyMessage token ownerId chat msg.message_id
    { parse_mode := none,
      keyboard :=
        [[{ text := "👤 " ++ userDisplayName msg.sender,
            action := ButtonAction.url ("tg://user?id=" ++ chat) },
          { text := "🆔 " ++ chat, action := ButtonAction.callback_data "reply_placeholder" }],
         [{ text := "🚫 屏蔽", action := ButtonAction.callback_data ("block_" ++ chat) },
          { text := "✅ 解封", action := ButtonAction.callback_data ("unblock_" ++ chat) }]] }

/-- The relay path: copy the message to the owner and, when the copy succeeded, count
it, record the correlation mapping and consult the fraud list. -/
def relay (c : BotConfig) (copyResp : CopyResp) (fraudDb : Option String) (now : Int)
    (s : Store) (routeId : String) (msg : Message) : Outcome :=
  let ownerId := toString c.owner_id
  let copy := relayCall c.token ownerId msg
  if copyResp.ok then
    let s1 := increment s now (msgsKey routeId)
    let s2 := s1.put now (mapKey copyResp.message_id) (Val.num msg.chat_id) (some MAP_TTL)
    let alert :=
      if isFraud fraudDb msg.chat_id then
        [Call.sendMessage c.token ownerId
          ("⚠️ **警报**：检测到发送者 UID " ++ toString msg.chat_id ++ " 在诈骗黑名单中！") markdown]
      else []
    { resp := Response.ok, store := s2, calls := [copy, Call.fetchFraudDb] ++ alert }
  else
    { resp := Response.ok, store := s, calls := [copy] }

/-- The callback branch of the managed handler, for a query from the owner. -/
def ownerCallback (c : BotConfig) (now : Int) (s : Store) (cq : CallbackQuery) : Outcome :=
  let targetId := ((jsSplit cq.data '_')[1]?).getD "undefined"
  if startsWith cq.data "block_" then
    { resp := Response.ok,
      store := s.put now (blockedKey targetId) (Val.bool true) none,
      calls := [Call.answerCallbackQuery c.token cq.id
                  (some ("🚫 用户 " ++ targetId ++ " 已屏蔽")) true] }
  else if startsWith cq.data "unblock_" then
    { resp := Response.ok,
      store := s.put now (blockedKey targetId) (Val.bool false) none,
      calls := [Call.answerCallbackQuery c.token cq.id
                  (some ("✅ 用户 " ++ targetId ++ " 已解封")) true] }
  else if cq.data = "reply_placeholder" then
    { resp := Response.ok, store := s,
      calls := [Call.answerCallbackQuery c.token cq.id none false] }
  else
    { resp := Response.ok, store := s, calls := [] }

/-- The end of the owner branch: the usage guide on `/start`, nothing otherwise. -/
def ownerTail (c : BotConfig) (s : Store) (msg : Message) : Outcome :=
  if msg.text.getD "" = "/start" then
    { resp := Response.ok, store := s,
      calls := [Call.sendMessage c.token (toString msg.chat_id) OWNER_HELP_TEXT markdown,
                Call.setMyCommands c.token] }
  else
    { resp := Response.ok, store := s, calls := [] }

/-- The owner branch of the managed handler. -/
def ownerMessage (c : BotConfig) (now : Int) (s : Store) (msg : Message) : Option Outcome :=
  let text := msg.text.getD ""
  let ownerId := toString c.owner_id
  match msg.reply_to with
  | none => some (ownerTail c s msg)
  | some repliedId =>
    match s.get now (mapKey repliedId) with
    | none => some (ownerTail c s msg)
    | some v =>
      match truthyJson (some v) with
      | none => none
      | some false => some (ownerTail c s msg)
      | some true =>
        let guestChatId := v.render
        if startsWith text "/block" then
          some { resp := Response.ok,
                 store := s.put now (blockedKey guestChatId) (Val.bool true) none,
                 calls := [Call.sendMessage c.token ownerId
                             ("🚫 已屏蔽用户 " ++ guestChatId) noOptions] }
        else if startsWith text "/unblock" then
          some { resp := Response.ok,
                 store := s.put now (blockedKey guestChatId) (Val.bool false) none,
                 calls := [Call.sendMessage c.token ownerId
                             ("✅ 已解除屏蔽 " ++ guestChatId) noOptions] }
        else
          some { resp := Response.ok, store := s,
                 calls := [Call.copyMessage c.token guestChatId (toString msg.chat_id)
                             msg.message_id noOptions] }

/-- The visitor branch of the managed handler. -/
def visitorMessage (c : BotConfig) (copyResp : CopyResp) (fraudDb : Option String)
    (now : Int) (s : Store) (origin routeId : String) (msg : Message) : Option Outcome :=
  let chat := toString msg.chat_id
  match truthyJson (s.get now (blockedKey chat)) with
  | none => none
  | some true =>
    some { resp := Response.ok, store := s,
           calls := [Call.sendMessage c.token chat BLOCK_NOTICE markdown] }
  | some false =>
    if msg.text.getD "" = "/start" then
      some { resp := Response.ok,
             store := increment s now (usersKey routeId),
             calls := [Call.sendMessage c.token chat (orElse c.welcome_msg DEFAULT_WELCOME)
                         markdown] }
    else if c.enable_verify.getD true then
      match isVerified s now routeId msg.chat_id with
      | none => none
      | some false =>
        some { resp := Response.ok, store := s,
               calls := [challengeCall c.token origin msg.chat_id routeId msg.sender] }
      | some true => some (relay c copyResp fraudDb now s routeId msg)
    else
      some (relay c copyResp fraudDb now s routeId msg)

/-- The managed handler once the route record has been read. -/
def managedWithConfig (c : BotConfig) (copyResp : CopyResp) (fraudDb : Option String)
    (now : Int) (s : Store) (req : Request) (routeId : String) : Option Outcome :=
  match req.update.callback_query with
  | some cq =>
    if toString cq.chat_id ≠ toString c.owner_id then
      some { resp := Response.ok, store := s,
             calls := [Call.answerCallbackQuery c.token cq.id (some "无权操作") true] }
    else
      some (ownerCallback c now s cq)
  | none =>
    match req.update.message with
    | none => some { resp := Response.ok, store := s, calls := [] }
    | some msg =>
      if toString msg.chat_id = toString c.owner_id then ownerMessage c now s msg
      else visitorMessage c copyResp fraudDb now s req.origin routeId msg

/-- `handleManagedBotWebhook(request, env, ctx, routeId)`; `copyResp` is the answer of
`copyMessage` and `fraudDb` the fetched fraud list, should the handler ask for them. -/
def handleManagedBotWebhook (copyResp : CopyResp) (fraudDb : Option String) (now : Int)
    (s : Store) (req : Request) (routeId : String) : Option Outcome :=
  match s.get now (routeKey routeId) with
  | none => some { resp := Response.text "Bot not found" 404, store := s, calls := [] }
  | some (Val.route c) => managedWithConfig c copyResp fraudDb now s req routeId
  | some (Val.user c _) => managedWithConfig c copyResp fraudDb now s req routeId
  | some _ => none

/-! ## Platform bot webhook (`handleMainBotWebhook`) -/

/-- `Math.round(seconds / 86400)`; `null` counts as zero. -/
def roundDays : Ttl → JsNum
  | Ttl.secs n => JsNum.fin (roundQuot n)
  | Ttl.nan => JsNum.nan
  | Ttl.null => JsNum.fin 0
  | Ttl.inf b => JsNum.inf b

/-- `days > 365 ? '永久' : days + unit`, for the unit that follows the number of days. -/
def daysText (days : JsNum) (unit : String) : String :=
  match days with
  | JsNum.fin d => if d > 365 then "永久" else jsString (JsNum.fin d) ++ unit
  | JsNum.nan => "NaN" ++ unit
  | JsNum.inf false => "永久"
  | JsNum.inf true => "-Infinity" ++ unit

/-- The TTL as shown on the dashboard: `ttlDays > 365 ? '永久' : ttlDays + '天'`. -/
def ttlText (t : Ttl) : String := daysText (roundDays t) "天"

/-- The TTL as shown on the TTL menu: `currentDays > 365 ? '永久' : currentDays + ' 天'`. -/
def ttlMenuText (t : Ttl) : String := daysText (roundDays t) " 天"

/-- A rendered panel: its text and the rows of its keyboard. -/
structure Panel where
  text : String
  markup : List (List Button)
  deriving DecidableEq, Repr

/-- The stored text of a value, for a value that is not an object. -/
def storedText : Val → Option String
  | Val.bool true => some "true"
  | Val.bool false => some "false"
  | Val.num n => some (numText n)
  | Val.nan => some "NaN"
  | _ => none

/-- `getAdminDashboardUI(platformConfig, env)`.  No panel is given when
`stats:platform:total_bots` holds one of the three objects, which the program never
stores there and whose JSON text is not spelled out here. -/
def getAdminDashboardUI (cfg : PlatformConfig) (s : Store) (now : Int) : Option Panel :=
  let total : Option String :=
    match s.get now totalBotsKey with
    | none => some "0"
    | some v => storedText v
  match total with
  | none => none
  | some totalBots =>
    some { text :=
             "\n🎛 **平台管理后台 (超级管理员)**\n\n📊 **平台数据**:\n• 累计托管机器人: " ++ totalBots ++
             "\n\n🔧 **全局设置**:\n• 新用户接入: " ++
             (if cfg.enable_new_users then "✅ 允许" else "⛔️ 禁止") ++
             "\n• 验证有效期: " ++ ttlText cfg.verify_ttl ++ " (全局默认)\n\n请选择操作：\n    ",
           markup :=
             [[{ text := if cfg.enable_new_users then "⛔️ 停止接入" else "🟢 开放接入",
                 action := ButtonAction.callback_data "admin_toggle_access" }],
              [{ text := "⏳ 设置有效期 (" ++ ttlText cfg.verify_ttl ++ ")",
                 action := ButtonAction.callback_data "admin_ttl_menu" }],
              [{ text := "🔄 刷新面板", action := ButtonAction.callback_data "admin_refresh" }]] }

/-- `getTTLMenuUI(currentSeconds)`. -/
def getTTLMenuUI (currentSeconds : Ttl) : Panel :=
  { text :=
      "\n⏳ **设置默认验证有效期**\n\n用户通过验证后，多久需要重新验证？\n当前：**" ++
      ttlMenuText currentSeconds ++ "**\n    ",
    markup :=
      [[{ text := "1 天", action := ButtonAction.callback_data "admin_set_ttl_1" },
        { text := "7 天", action := ButtonAction.callback_data "admin_set_ttl_7" }],
       [{ text := "30 天", action := ButtonAction.callback_data "admin_set_ttl_30" },
        { text := "永久", action := ButtonAction.callback_data "admin_set_ttl_365" }],
       [{ text := "🔙 返回", action := ButtonAction.callback_data "admin_refresh" }]] }

/-- The configuration used when `platform:settings` reads as falsy. -/
def defaultConfig : PlatformConfig :=
  { enable_new_users := true, verify_ttl := Ttl.secs DEFAULT_TTL }

/-- `(await get('platform:settings', { type: 'json' })) || default`.  `none` when
`JSON.parse` throws, and also for a truthy value that is not a settings object, which
the program never stores under this key. -/
def loadConfig (v : Option Val) : Option PlatformConfig :=
  match v with
  | none => some defaultConfig
  | some (Val.settings c) => some c
  | some (Val.bool false) => some defaultConfig
  | some (Val.num n) => if n = 0 then some defaultConfig else none
  | some _ => none

/-- The options of an edited or sent panel. -/
def panelOptions (p : Panel) : Options := { parse_mode := some "Markdown", keyboard := p.markup }

/-- The callback branch of the platform handler, for a query from the administrator. -/
def adminCallback (env : Env) (now : Int) (s : Store) (cq : CallbackQuery) : Option Outcome :=
  let tok := env.ENV_BOT_TOKEN
  let chat := toString cq.chat_id
  match loadConfig (s.get now settingsKey) with
  | none => none
  | some cfg =>
    if cq.data = "admin_toggle_access" then
      let cfg1 : PlatformConfig := { cfg with enable_new_users := !cfg.enable_new_users }
      let s1 := s.put now settingsKey cfg1.stored none
      (getAdminDashboardUI cfg1 s1 now).map (fun dashboard =>
        { resp := Response.ok, store := s1,
          calls := [Call.editMessageText tok chat cq.message_id dashboard.text
                      (panelOptions dashboard),
                    Call.answerCallbackQuery tok cq.id
                      (some ("新接入已" ++ (if cfg1.enable_new_users then "开启" else "关闭")))
                      false] })
    else if cq.data = "admin_ttl_menu" then
      let ttlMenu := getTTLMenuUI cfg.verify_ttl
      some { resp := Response.ok, store := s,
             calls := [Call.editMessageText tok chat cq.message_id ttlMenu.text
                         (panelOptions ttlMenu)] }
    else if startsWith cq.data "admin_set_ttl_" then
      let days := parseInt (((jsSplit cq.data '_')[3]?).getD "undefined")
      let ttl : Ttl := Ttl.ofNum (((days.times 24).times 60).times 60)
      let cfg1 : PlatformConfig := { cfg with verify_ttl := ttl }
      let s1 := s.put now settingsKey cfg1.stored none
      (getAdminDashboardUI cfg1 s1 now).map (fun dashboard =>
        { resp := Response.ok, store := s1,
          calls := [Call.answerCallbackQuery tok cq.id (some "设置已更新") false,
                    Call.editMessageText tok chat cq.message_id dashboard.text
                      (panelOptions dashboard)] })
    else if cq.data = "admin_refresh" then
      (getAdminDashboardUI cfg s now).map (fun dashboard =>
        { resp := Response.ok, store := s,
          calls := [Call.editMessageText tok chat cq.message_id dashboard.text
                      (panelOptions dashboard),
                    Call.answerCallbackQuery tok cq.id (some "已刷新") false] })
    else
      some { resp := Response.ok, store := s, calls := [] }

/-- The welcome text of the platform bot. -/
def PLATFORM_WELCOME : String :=
  "\n🤖 **欢迎使用 PM 机器人托管平台**\n\n在这里，您可以免费创建一个功能强大的**私聊转发机器人**。\n" ++
  "它能帮您接收陌生人的消息，隐藏您的真实身份，并自动拦截垃圾广告。\n\n🌟 **核心功能：**\n" ++
  "• **智能验证**：自动拦截机器人和广告骚扰。\n• **隐私回复**：直接回复消息，对方看不到您的账号。\n" ++
  "• **一键管理**：消息下方自带屏蔽/解封按钮。\n• **数据统计**：查看有多少人联系过您。\n\n" ++
  "🚀 **如何开始？**\n只需将您的 **Bot Token** 发送给我即可。\n" ++
  "*(如果您还没有 Token，请先找 @BotFather 申请一个)*\n          "

/-- A character of the class `[A-Za-z0-9_-]`. -/
def isTokenChar (c : Char) : Bool :=
  let n := c.toNat
  (65 ≤ n && n ≤ 90) || (97 ≤ n && n ≤ 122) || (48 ≤ n && n ≤ 57) || c = '_' || c = '-'

/-- A character of the class `\d`. -/
def isDigit (c : Char) : Bool := 48 ≤ c.toNat && c.toNat ≤ 57

/-- The test of the regular expression `^\d+:[A-Za-z0-9_-]{35,}$` on a character list. -/
def matchesToken (cs : List Char) : Bool :=
  let ds := cs.takeWhile isDigit
  match cs.dropWhile isDigit with
  | ':' :: rest => !ds.isEmpty && decide (35 ≤ rest.length) && rest.all isTokenChar
  | _ => false

/-- The test made on an inbound text: the trimmed text has the shape of a bot token. -/
def isCredential (text : String) : Bool := matchesToken (jsTrim text).data

/-- `botUsername.replace(/_/g, '\\_')`. -/
def escapeUnderscores (s : String) : String :=
  String.mk (s.data.flatMap (fun c => if c = '_' then [Char.ofNat 92, '_'] else [c]))

/-- The answers of the outside world that a registration consumes: the answers of
`getMe` and `setWebhook`, the two results of `uuidv4()` and `Date.now()`. -/
structure World where
  getMeOk : Bool
  username : String
  setHookOk : Bool
  description : String
  routeId : String
  secret : String
  dateNow : Int
  deriving DecidableEq, Repr

/-- The truthiness of `platformConfig.enable_new_users` for
`platformConfig = (await get('platform:settings', { type: 'json' })) || { enable_new_users: true }`;
`none` when `JSON.parse` throws. -/
def acceptsNewRoutes (v : Option Val) : Option Bool :=
  match v with
  | none => some true
  | some (Val.settings c) => some c.enable_new_users
  | some (Val.bool false) => some true
  | some (Val.num n) =>
    if n = 0 then some true else if overflows n then none else some false
  | some Val.nan => none
  | some _ => some false

/-- The record `botConfig` built by a registration. -/
def newBotConfig (w : World) (msg : Message) : BotConfig :=
  { token := jsTrim (msg.text.getD ""), owner_id := msg.chat_id, secret := w.secret,
    bot_username := w.username, created_at := w.dateNow,
    enable_verify := some true, welcome_msg := none }

/-- The registration branch of the platform handler, for a text shaped like a token. -/
def register (env : Env) (w : World) (now : Int) (s : Store) (origin : String)
    (msg : Message) : Option Outcome :=
  let main := env.ENV_BOT_TOKEN
  let chat := toString msg.chat_id
  match acceptsNewRoutes (s.get now settingsKey) with
  | none => none
  | some accept =>
    if !accept && chat ≠ env.ENV_ADMIN_UID then
      some { resp := Response.ok, store := s,
             calls := [Call.sendMessage main chat
                         "⛔️ **平台维护中**\n\n管理员已暂时关闭新机器人接入，请稍后再试。" markdown] }
    else
      let userToken := jsTrim (msg.text.getD "")
      let wait := Call.sendMessage main chat "⏳ 正在验证 Token 并部署环境，请稍候..." noOptions
      if !w.getMeOk then
        some { resp := Response.ok, store := s,
               calls := [wait, Call.getMe userToken,
                         Call.sendMessage main chat "❌ **Token 无效**\n请检查是否复制完整。" markdown] }
      else
        let hook := Call.setWebhook userToken (origin ++ "/entry/" ++ w.routeId) w.secret
        if !w.setHookOk then
          some { resp := Response.ok, store := s,
                 calls := [wait, Call.getMe userToken, hook,
                           Call.sendMessage main chat ("❌ **部署失败**: " ++ w.description)
                             noOptions] }
        else
          let botConfig := newBotConfig w msg
          let s1 := s.put now (routeKey w.routeId) (Val.route botConfig) none
          let s2 := s1.put now (userKey msg.chat_id) (Val.user botConfig w.routeId) none
          let s3 := increment s2 now totalBotsKey
          some { resp := Response.ok, store := s3,
                 calls := [wait, Call.getMe userToken, hook, Call.setMyCommands userToken,
                           Call.sendMessage main chat
                             ("\n✅ **部署成功！**\n\n您的私聊机器人已就绪：@" ++
                              escapeUnderscores w.username ++
                              "\n\n👉 **下一步**：\n请直接前往您的机器人，点击左下角 **菜单** 或发送 **/start** 开始使用。\n    ")
                             markdown,
                           Call.sendMessage userToken chat OWNER_HELP_TEXT markdown] }

/-- The message branch of the platform handler. -/
def mainMessage (env : Env) (w : World) (now : Int) (s : Store) (origin : String)
    (msg : Message) : Option Outcome :=
  let main := env.ENV_BOT_TOKEN
  let chat := toString msg.chat_id
  let text := msg.text.getD ""
  if text = "/start" then
    if chat = env.ENV_ADMIN_UID then
      match loadConfig (s.get now settingsKey) with
      | none => none
      | some cfg =>
        (getAdminDashboardUI cfg s now).map (fun dashboard =>
          { resp := Response.ok, store := s,
            calls := [Call.sendMessage main chat dashboard.text (panelOptions dashboard)] })
    else
      some { resp := Response.ok, store := s,
             calls := [Call.sendMessage main chat PLATFORM_WELCOME markdown] }
  else if isCredential text then register env w now s origin msg
  else some { resp := Response.ok, store := s, calls := [] }

/-- `handleMainBotWebhook(request, env, ctx)`. -/
def handleMainBotWebhook (env : Env) (w : World) (now : Int) (s : Store)
    (req : Request) : Option Outcome :=
  if req.secretHeader ≠ some env.ENV_BOT_SECRET then
    some { resp := Response.text "Unauthorized" 403, store := s, calls := [] }
  else
    match req.update.callback_query with
    | some cq =>
      if toString cq.chat_id ≠ env.ENV_ADMIN_UID then
        some { resp := Response.ok, store := s,
               calls := [Call.answerCallbackQuery env.ENV_BOT_TOKEN cq.id (some "无权操作") true] }
      else adminCallback env now s cq
    | none =>
      match req.update.message with
      | none => some { resp := Response.ok, store := s, calls := [] }
      | some msg => mainMessage env w now s req.origin msg

/-! ## The fraud list, by the words of the specification -/

/-- The entries of the fetched list: its lines. -/
def listEntries (db : String) : List String := jsSplit db (Char.ofNat 10)

/-- Membership as the specification words it (`fetches an external list and checks
membership`): the text of `id` is a whole entry of the fetched list.  This is the
reference that `isFraud` is compared with, not a translation of the source. -/
def isListed (db : String) (id : Int) : Bool := (listEntries db).contains (toString id)

/-! ## Sample data -/

/-- Sample environment bindings. -/
def sampleEnv : Env :=
  { ENV_BOT_SECRET := "platform-secret", ENV_BOT_TOKEN := "main-token", ENV_ADMIN_UID := "1",
    ENV_TURNSTILE_SITE_KEY := "site", ENV_TURNSTILE_SECRET_KEY := "turnstile" }

/-- A sample route record, as written by a registration, owned by chat 42. -/
def sampleConfig : BotConfig :=
  { token := "bot-token", owner_id := 42, secret := "route-secret", bot_username := "demo_bot",
    created_at := 0, enable_verify := some true, welcome_msg := none }

/-- A store holding the sample route under the route id `X`. -/
def sampleStore : Store := [(routeKey "X", { val := Val.route sampleConfig, expiration := none })]

/-- A sender named Ann. -/
def sampleSender : Sender := { first_name := some "Ann", last_name := none, username := none }

/-- A text message of chat `chat`. -/
def textMessage (chat : Int) (text : String) (replyTo : Option Int) : Message :=
  { message_id := 7, chat_id := chat, text := some text, sender := sampleSender,
    reply_to := replyTo }

/-- A webhook request that carries a message, with a given secret header. -/
def messageRequest (header : Option String) (msg : Message) : Request :=
  { secretHeader := header, origin := "https://w.example",
    update := { callback_query := none, message := some msg } }

/-- A webhook request that carries a callback query, with a given secret header. -/
def callbackRequest (header : Option String) (chat : Int) (data : String) : Request :=
  { secretHeader := header, origin := "https://w.example",
    update := { callback_query := some { id := "cb", data := data, chat_id := chat,
                                         message_id := 9 },
                message := none } }

/-- A verification form with a Turnstile token. -/
def sampleForm (uid : String) (routeId : Option String) : VerifyForm :=
  { token := some "captcha", uid := some uid, routeId := routeId, ip := none }

/-- Sample answers of the outside world to a registration. -/
def sampleWorld : World :=
  { getMeOk := true, username := "demo_bot", setHookOk := true, description := "",
    routeId := "X", secret := "route-secret", dateNow := 0 }

/-- A text of the shape of a bot token. -/
def sampleToken : String := "123456:ABCDEFGHIJKLMNOPQRSTUVWXYZabcdefghi"

/-- The store after the administrator chose a TTL of zero days. -/
def zeroTtlStore : Store :=
  [(settingsKey,
    { val := Val.settings { enable_new_users := true, verify_ttl := Ttl.secs 0 },
      expiration := none })]

/-- Two routes, `R1` of owner 42 and `R2` of owner 43, with verification switched on, and
the visitors 555 (on `R1`) and 777 (on `R2`) verified. -/
def twoRoutes : Store :=
  [(verifiedKey "R2" "777", { val := Val.bool true, expiration := some 2592000 }),
   (verifiedKey "R1" "555", { val := Val.bool true, expiration := some 2592000 }),
   (routeKey "R2",
    { val := Val.route { sampleConfig with token := "t2", owner_id := 43 }, expiration := none }),
   (routeKey "R1",
    { val := Val.route { sampleConfig with token := "t1", owner_id := 42 }, expiration := none })]

/-- Three invocations in a row: visitor 555 writes on `R1` and the copy gets the identifier
100 in the chat of owner 42; visitor 777 writes on `R2` and the copy gets the identifier 100 in
the chat of owner 43; owner 42 then answers on `R1`, within the hour, in reply to the message
100, with the given text.  The result is the outcome of the third invocation. -/
def crossRouteReply (text : String) : Option Outcome :=
  (handleManagedBotWebhook { ok := true, message_id := 100 } none 10 twoRoutes
      (messageRequest none (textMessage 555 "hello" none)) "R1").bind (fun o1 =>
    (handleManagedBotWebhook { ok := true, message_id := 100 } none 20 o1.store
        (messageRequest none (textMessage 777 "hi" none)) "R2").bind (fun o2 =>
      handleManagedBotWebhook { ok := true, message_id := 0 } none 3600 o2.store
        (messageRequest none (textMessage 42 text (some 100))) "R1"))

/-! ## Facts about the store and the keys -/

set_option maxRecDepth 4000

theorem get_put_ne (s : Store) (now now2 : Int) (k k2 : String) (v : Val) (ttl : Option Int)
    (h : k2 ≠ k) : (s.put now k v ttl).get now2 k2 = s.get now2 k2 := by
  have hb : (k2 == k) = false := by simpa using h
  simp [Store.get, Store.put, List.lookup, hb]

theorem get_put_same (s : Store) (now now2 : Int) (k : String) (v : Val) (ttl : Int)
    (h : now2 < now + ttl) : (s.put now k v (some ttl)).get now2 k = some v := by
  simp [Store.get, Store.put, List.lookup, Entry.live, h]

theorem get_put_forever (s : Store) (now now2 : Int) (k : String) (v : Val) :
    (s.put now k v none).get now2 k = some v := by
  simp [Store.get, Store.put, List.lookup, Entry.live]

/-- A key that reads as absent stays absent as time passes. -/
theorem get_none_mono (s : Store) (now now2 : Int) (k : String) (hle : now ≤ now2)
    (h : s.get now k = none) : s.get now2 k = none := by
  unfold Store.get at h ⊢
  cases hl : s.lookup k with
  | none => simp
  | some e =>
    rw [hl] at h
    simp only at h ⊢
    cases he : e.expiration with
    | none => simp [Entry.live, he] at h
    | some t =>
      simp only [Entry.live, he] at h ⊢
      have hnot : ¬ now < t := by simpa using h
      have : ¬ now2 < t := by omega
      simp [this]

theorem verifiedKey_inj_route (a b v : String) (h : verifiedKey a v = verifiedKey b v) :
    a = b := by
  have h2 := congrArg String.data h
  simp [verifiedKey] at h2
  exact String.ext h2

theorem legacy_ne_verified (a v : String) : legacyVerifiedKey v ≠ verifiedKey a v := by
  intro h
  have h2 := congrArg (fun t => t.data.length) h
  simp [verifiedKey, legacyVerifiedKey] at h2
  omega

theorem legacy_eq_verified_iff (u r v : String) :
    legacyVerifiedKey u = verifiedKey r v ↔ u = r ++ "-" ++ v := by
  constructor
  · intro h
    have h2 := congrArg String.data h
    simp [verifiedKey, legacyVerifiedKey] at h2
    apply String.ext
    simpa using h2
  · intro h
    subst h
    apply String.ext
    simp [verifiedKey, legacyVerifiedKey]

/-- A write with a computed TTL that goes through is the plain write with that TTL, and
the TTL is one the store accepts. -/
theorem putTtl_some (s : Store) (now : Int) (k : String) (v : Val) (ttl : JsNum) (s1 : Store)
    (h : s.putTtl now k v ttl = some s1) :
    ∃ t, ttl = JsNum.fin t ∧ ttlAccepted t = true ∧ s1 = s.put now k v (some t) := by
  cases ttl with
  | fin t =>
    by_cases ht : ttlAccepted t = true
    · simp [Store.putTtl, ht] at h
      exact ⟨t, rfl, ht, h.symm⟩
    · simp [Store.putTtl, ht] at h
  | nan => simp [Store.putTtl] at h
  | inf b => simp [Store.putTtl] at h

/-- The two constant TTLs of the program are accepted by the store. -/
theorem constant_ttls_accepted : ttlAccepted DEFAULT_TTL = true ∧ ttlAccepted MAP_TTL = true := by
  decide

/-- An integer of magnitude up to `2 ^ 53` is a double. -/
theorem toDouble_safe (n : Int) (h : n.natAbs ≤ 2 ^ 53) : toDouble n = JsNum.fin n := by
  unfold toDouble roundNat
  simp only [h, if_true]
  by_cases hn : n < 0
  · simp only [hn, if_true]
    congr 1
    omega
  · simp only [hn, if_false]
    congr 1
    omega

/-- Where a verification submission can leave the store: untouched, one record under the
route-scoped key, or one record under the old key when no routeId came with the request. -/
theorem submit_store_cases (env : Env) (tr : Bool) (now : Int) (s : Store) (f : VerifyForm)
    (o : Outcome) (h : handleVerifySubmit env tr now s f = some o) :
    o.store = s ∨
    (∃ r u ttl, f.routeId = some r ∧ r ≠ "" ∧ f.uid = some u ∧
      o.store = s.put now (verifiedKey r u) (Val.bool true) (some ttl)) ∨
    (∃ u, truthyStr f.routeId = false ∧ f.uid = some u ∧
      o.store = s.put now (legacyVerifiedKey u) (Val.bool true) (some DEFAULT_TTL)) := by
  unfold handleVerifySubmit at h
  split at h
  · rename_i token uid htok huid
    split at h
    · simp at h; subst h; simp
    · split at h
      · split at h
        · rename_i routeId hr
          split at h
          · split at h
            · rename_i ttl tok _ _
              split at h
              · simp at h
              · rename_i s1 hs1
                simp at h; subst h
                obtain ⟨t, _, _, hs⟩ := putTtl_some _ _ _ _ _ _ hs1
                right; left
                exact ⟨routeId, uid, t, hr, by assumption, huid, hs⟩
            · simp at h
          · simp at h; subst h
            right; right
            refine ⟨uid, ?_, huid, rfl⟩
            rename_i hne
            simp at hne
            simp [truthyStr, hr, hne]
        · rename_i hr
          simp at h; subst h
          right; right
          exact ⟨uid, by simp [truthyStr, hr], huid, rfl⟩
      · simp at h; subst h; simp
  · simp at h; subst h; simp

/-- The token read for a route key that is absent or holds a route record. -/
theorem tokenToSend_route (v : Option Val) (h : v = none ∨ ∃ rc, v = some (Val.route rc)) :
    ∃ t, tokenToSend v = some t := by
  rcases h with h | ⟨rc, h⟩
  · exact ⟨none, by rw [h]; rfl⟩
  · exact ⟨some rc.token, by rw [h]; rfl⟩

/-- A successful submission that carries a token, a uid and a routeId hands the TTL chosen
by `effectiveTtl` to the store: the record is written when the store accepts it, and the
invocation throws when it does not. -/
theorem submit_with_route (env : Env) (now : Int) (s : Store) (f : VerifyForm)
    (tok uid X : String) (ttl : JsNum)
    (htok : f.token = some tok) (htok2 : tok ≠ "") (huid : f.uid = some uid) (huid2 : uid ≠ "")
    (hX : f.routeId = some X) (hX2 : X ≠ "")
    (hroute : s.get now (routeKey X) = none ∨ ∃ rc, s.get now (routeKey X) = some (Val.route rc))
    (httl : effectiveTtl (s.get now settingsKey) = some ttl) :
    (handleVerifySubmit env true now s f).map (fun o => o.store) =
      s.putTtl now (verifiedKey X uid) (Val.bool true) ttl := by
  obtain ⟨t, ht⟩ := tokenToSend_route _ hroute
  cases hp : s.putTtl now (verifiedKey X uid) (Val.bool true) ttl with
  | none => simp [handleVerifySubmit, htok, huid, htok2, huid2, hX, hX2, httl, ht, hp]
  | some s1 => simp [handleVerifySubmit, htok, huid, htok2, huid2, hX, hX2, httl, ht, hp]

/-- The mapping written by a successful relay reads as the visitor until 48 hours have
passed and as absent from then on, as long as nothing else writes the same key. -/
theorem relay_mapping (c : BotConfig) (copyResp : CopyResp) (fraudDb : Option String)
    (now later : Int) (s : Store) (R : String) (msg : Message) (hok : copyResp.ok = true) :
    (relay c copyResp fraudDb now s R msg).store.get later (mapKey copyResp.message_id) =
      if later < now + 172800 then some (Val.num msg.chat_id) else none := by
  by_cases h : later < now + 172800 <;>
    simp [relay, hok, Store.get, Store.put, List.lookup, Entry.live, MAP_TTL, h]

/-- The platform entry point rejects a request whose secret header is not the platform
secret: status 403, nothing sent, store unchanged. -/
theorem main_rejects_bad_secret (env : Env) (w : World) (now : Int) (s : Store) (req : Request)
    (h : req.secretHeader ≠ some env.ENV_BOT_SECRET) :
    handleMainBotWebhook env w now s req =
      some { resp := Response.text "Unauthorized" 403, store := s, calls := [] } := by
  simp [handleMainBotWebhook, h]

/-- A request for a routeId without a stored record is answered 404 and nothing else
happens. -/
theorem managed_unknown_route (copyResp : CopyResp) (fraudDb : Option String) (now : Int)
    (s : Store) (req : Request) (R : String) (h : s.get now (routeKey R) = none) :
    handleManagedBotWebhook copyResp fraudDb now s req R =
      some { resp := Response.text "Bot not found" 404, store := s, calls := [] } := by
  simp [handleManagedBotWebhook, h]

/-! ## The claims -/

/-- C1: for route ids `A ≠ B` and a visitor `V`, a verification submission that carries
`routeId = A` and `uid = V` (successful or not) leaves the gate read for `(B, V)` unverified
at every later time, when the store held no record for `(B, V)`; the key written for `(A, V)`
and the key read for `(B, V)` differ. -/
theorem cross_route_isolation (env : Env) (trSuccess : Bool) (now later : Int) (s : Store)
    (f : VerifyForm) (A B : String) (V : Int) (o : Outcome)
    (hAB : A ≠ B) (hA : f.routeId = some A) (hV : f.uid = some (toString V))
    (hrun : handleVerifySubmit env trSuccess now s f = some o)
    (hle : now ≤ later)
    (hno : s.get now (verifiedKey B (toString V)) = none) :
    isVerified o.store later B V = some false ∧
    verifiedKey A (toString V) ≠ verifiedKey B (toString V) := by
  have hno2 := get_none_mono s now later _ hle hno
  have hkeys : verifiedKey B (toString V) ≠ verifiedKey A (toString V) := fun e =>
    hAB (verifiedKey_inj_route _ _ _ e).symm
  refine ⟨?_, fun e => hkeys e.symm⟩
  rcases submit_store_cases env trSuccess now s f o hrun with
    h | ⟨r, u, ttl, hr, _, hu, h⟩ | ⟨u, _, hu, h⟩
  · simp [isVerified, h, hno2, truthyJson]
  · rw [hA] at hr; rw [hV] at hu
    cases hr; cases hu
    simp [isVerified, h, get_put_ne _ _ _ _ _ _ _ hkeys, hno2, truthyJson]
  · rw [hV] at hu
    cases hu
    have hk : verifiedKey B (toString V) ≠ legacyVerifiedKey (toString V) := fun e =>
      legacy_ne_verified _ _ e.symm
    simp [isVerified, h, get_put_ne _ _ _ _ _ _ _ hk, hno2, truthyJson]

/-- C1, at a concrete input: verifying 555 on `A` leaves `(B, 555)` unverified. -/
theorem cross_route_isolation_witness :
    isVerified (Store.put [] 0 (verifiedKey "A" "555") (Val.bool true) (some DEFAULT_TTL))
      10 "B" 555 = some false ∧
    verifiedKey "A" (toString (555 : Int)) ≠ verifiedKey "B" (toString (555 : Int)) :=
  cross_route_isolation sampleEnv true 0 10 [] (sampleForm "555" (some "A")) "A" "B" 555
    { resp := Response.success true,
      store := Store.put [] 0 (verifiedKey "A" "555") (Val.bool true) (some DEFAULT_TTL),
      calls := [Call.siteverify "turnstile" "captcha" none] }
    (by decide) rfl (by decide) (by decide) (by decide) (by decide)

/-- C2, refuted as stated: on an empty store, a successful submission that carries no
routeId and the uid `X-555` writes the old key `verified-X-555`, which is the key the gate
reads for route `X` and visitor 555, so the gate read for `(X, 555)` turns true. -/
theorem legacy_key_verifies_route :
    isVerified [] 0 "X" 555 = some false ∧
    (handleVerifySubmit sampleEnv true 0 [] (sampleForm "X-555" none)).map
        (fun o => (o.store, isVerified o.store 0 "X" 555)) =
      some (Store.put [] 0 (legacyVerifiedKey "X-555") (Val.bool true) (some DEFAULT_TTL),
            some true) := by
  decide

/-- C2, amended: a submission writes at most one record; with a non-empty routeId its key is
`verified-{routeId}-{uid}`, without one it is the old key `verified-{uid}`; and a submission
without routeId leaves the gate read of every `(R, V)` as it was unless its uid is the text
`R-V`. -/
theorem submit_keys_by_route (env : Env) (trSuccess : Bool) (now : Int) (s : Store)
    (f : VerifyForm) (o : Outcome)
    (hrun : handleVerifySubmit env trSuccess now s f = some o) :
    (o.store = s ∨
      (∃ r u ttl, f.routeId = some r ∧ r ≠ "" ∧ f.uid = some u ∧
        o.store = s.put now (verifiedKey r u) (Val.bool true) (some ttl)) ∨
      (∃ u, truthyStr f.routeId = false ∧ f.uid = some u ∧
        o.store = s.put now (legacyVerifiedKey u) (Val.bool true) (some DEFAULT_TTL))) ∧
    (truthyStr f.routeId = false →
      ∀ (R : String) (V : Int) (later : Int), f.uid ≠ some (R ++ "-" ++ toString V) →
        isVerified o.store later R V = isVerified s later R V) := by
  refine ⟨submit_store_cases env trSuccess now s f o hrun, ?_⟩
  intro hno R V later hne
  rcases submit_store_cases env trSuccess now s f o hrun with
    h | ⟨r, u, ttl, hr, hr2, hu, h⟩ | ⟨u, _, hu, h⟩
  · rw [h]
  · rw [hr] at hno
    simp [truthyStr, hr2] at hno
  · have hk : verifiedKey R (toString V) ≠ legacyVerifiedKey u := by
      intro e
      apply hne
      rw [hu, (legacy_eq_verified_iff u R (toString V)).1 e.symm]
    simp [isVerified, h, get_put_ne _ _ _ _ _ _ _ hk]

/-- C2 amended, at a concrete input: a submission without routeId for the uid 555 does not
change the gate read for `(X, 555)`. -/
theorem submit_keys_by_route_witness :
    isVerified (Store.put [] 0 (legacyVerifiedKey "555") (Val.bool true) (some DEFAULT_TTL))
      9 "X" 555 = isVerified [] 9 "X" 555 :=
  (submit_keys_by_route sampleEnv true 0 [] (sampleForm "555" none)
    { resp := Response.success true,
      store := Store.put [] 0 (legacyVerifiedKey "555") (Val.bool true) (some DEFAULT_TTL),
      calls := [Call.siteverify "turnstile" "captcha" none] }
    (by decide)).2 (by decide) "X" 555 9 (by decide)

/-- C3: on an existing route, a message (any text, `/start` included) from a chat that is not
the owner, while the block flag of that chat reads true, is answered with the block notice to
that chat and nothing else: no other call, and the store is unchanged. -/
theorem blocked_visitor_stops (copyResp : CopyResp) (fraudDb : Option String) (now : Int)
    (s : Store) (req : Request) (R : String) (c : BotConfig) (msg : Message)
    (hroute : s.get now (routeKey R) = some (Val.route c))
    (hcb : req.update.callback_query = none) (hmsg : req.update.message = some msg)
    (hvisitor : toString msg.chat_id ≠ toString c.owner_id)
    (hblocked : truthyJson (s.get now (blockedKey (toString msg.chat_id))) = some true) :
    handleManagedBotWebhook copyResp fraudDb now s req R =
      some { resp := Response.ok, store := s,
             calls := [Call.sendMessage c.token (toString msg.chat_id) BLOCK_NOTICE markdown] } := by
  simp [handleManagedBotWebhook, hroute, managedWithConfig, hcb, hmsg, hvisitor, visitorMessage,
    hblocked]

/-- C3, at a concrete input: blocked visitor 555 sends `/start` on route `X`. -/
theorem blocked_visitor_stops_witness :
    handleManagedBotWebhook { ok := true, message_id := 100 } none 5
        (Store.put sampleStore 1 (blockedKey "555") (Val.bool true) none)
        (messageRequest none (textMessage 555 "/start" none)) "X" =
      some { resp := Response.ok,
             store := Store.put sampleStore 1 (blockedKey "555") (Val.bool true) none,
             calls := [Call.sendMessage "bot-token" "555" BLOCK_NOTICE markdown] } :=
  blocked_visitor_stops { ok := true, message_id := 100 } none 5
    (Store.put sampleStore 1 (blockedKey "555") (Val.bool true) none)
    (messageRequest none (textMessage 555 "/start" none)) "X" sampleConfig
    (textMessage 555 "/start" none) (by decide) rfl rfl (by decide) (by decide)

/-- C4: on a route whose `enable_verify` is not `false` (a record without the field counts
as enabled), a message other than `/start` from a chat that is not the owner, is not blocked
and has no readable verification record for the route, produces exactly one call, the
challenge message to that chat whose link carries `uid` = the chat and `routeId` = the route,
and leaves the store unchanged. -/
theorem unverified_visitor_challenged (copyResp : CopyResp) (fraudDb : Option String)
    (now : Int) (s : Store) (req : Request) (X : String) (c : BotConfig) (msg : Message)
    (hroute : s.get now (routeKey X) = some (Val.route c))
    (henabled : c.enable_verify ≠ some false)
    (hcb : req.update.callback_query = none) (hmsg : req.update.message = some msg)
    (hvisitor : toString msg.chat_id ≠ toString c.owner_id)
    (hfree : truthyJson (s.get now (blockedKey (toString msg.chat_id))) = some false)
    (hnone : s.get now (verifiedKey X (toString msg.chat_id)) = none)
    (htext : msg.text ≠ some "/start") :
    handleManagedBotWebhook copyResp fraudDb now s req X =
      some { resp := Response.ok, store := s,
             calls := [Call.sendMessage c.token (toString msg.chat_id) CHALLENGE_TEXT
                         { parse_mode := some "HTML",
                           keyboard := [[{ text := "🤖 点击验证 (Verify)",
                                           action := ButtonAction.web_app
                                             (req.origin ++ "/verify?uid=" ++ toString msg.chat_id ++
                                              "&routeId=" ++ X ++
                                              "&name=" ++ encodeURIComponent
                                                (orElse msg.sender.first_name "User") ++
                                              "&user=" ++ encodeURIComponent
                                                (if truthyStr msg.sender.username
                                                 then "(@" ++ msg.sender.username.getD "" ++ ")"
                                                 else "")) }]] }] } := by
  have ht : ¬ (msg.text.getD "" = "/start") := by
    intro h
    cases hx : msg.text with
    | none => rw [hx] at h; simp at h
    | some t =>
      rw [hx] at h
      simp at h
      exact htext (by rw [hx, h])
  have hen : c.enable_verify.getD true = true := by
    cases he : c.enable_verify with
    | none => rfl
    | some b =>
      cases b
      · exact absurd he henabled
      · rfl
  have hv : truthyJson (none : Option Val) = some false := rfl
  simp [handleManagedBotWebhook, hroute, managedWithConfig, hcb, hmsg, hvisitor, visitorMessage,
    hfree, ht, hen, isVerified, hnone, hv, challengeCall, verifyLink]

/-- C4, at a concrete input: visitor 555 sends `hello` on route `X`, never verified. -/
theorem unverified_visitor_challenged_witness :
    (handleManagedBotWebhook { ok := true, message_id := 100 } none 5 sampleStore
        (messageRequest none (textMessage 555 "hello" none)) "X").map
        (fun o => (o.store, o.calls.length)) = some (sampleStore, 1) :=
  congrArg (Option.map (fun o => (o.store, o.calls.length)))
    (unverified_visitor_challenged { ok := true, message_id := 100 } none 5 sampleStore
      (messageRequest none (textMessage 555 "hello" none)) "X" sampleConfig
      (textMessage 555 "hello" none) (by decide) (by decide) rfl rfl (by decide) (by decide)
      (by decide) (by decide))

/-- C5, refuted as stated: the administrator callback `admin_set_ttl_0` stores a platform
configuration whose `verify_ttl` is 0; a successful submission that carries `routeId = X` and
`uid = 555` then writes the record for `(X, 555)` with the hardcoded TTL 2592000, not with
the stored `verify_ttl`, although the request carries a routeId and a configuration is
stored. -/
theorem zero_ttl_falls_back :
    (handleMainBotWebhook sampleEnv sampleWorld 0 []
        (callbackRequest (some "platform-secret") 1 "admin_set_ttl_0")).map (fun o => o.store) =
      some zeroTtlStore ∧
    zeroTtlStore.get 5 settingsKey =
      some (Val.settings { enable_new_users := true, verify_ttl := Ttl.secs 0 }) ∧
    (handleVerifySubmit sampleEnv true 5 zeroTtlStore (sampleForm "555" (some "X"))).map
        (fun o => o.store) =
      some (zeroTtlStore.put 5 (verifiedKey "X" "555") (Val.bool true) (some 2592000)) ∧
    (handleVerifySubmit sampleEnv true 5 zeroTtlStore (sampleForm "555" (some "X"))).map
        (fun o => o.store) ≠
      some (zeroTtlStore.put 5 (verifiedKey "X" "555") (Val.bool true) (some 0)) := by
  decide

/-- A TTL below the accepted range, at a concrete input: the administrator callback
`admin_set_ttl_-1` stores a `verify_ttl` of -86400; the next successful submission for
`(X, 555)` passes it to the store, which refuses it, so the invocation throws and no
verification record exists afterwards. -/
theorem negative_ttl_refused :
    (handleMainBotWebhook sampleEnv sampleWorld 0 []
        (callbackRequest (some "platform-secret") 1 "admin_set_ttl_-1")).map
        (fun o => o.store.get 5 "platform:settings") =
      some (some (Val.settings { enable_new_users := true, verify_ttl := Ttl.secs (-86400) })) ∧
    (handleMainBotWebhook sampleEnv sampleWorld 0 []
        (callbackRequest (some "platform-secret") 1 "admin_set_ttl_-1")).bind
        (fun o => handleVerifySubmit sampleEnv true 5 o.store (sampleForm "555" (some "X"))) =
      none := by
  decide

/-- C5, amended: a successful submission with a token and a uid, carrying a non-empty
`routeId = X` (registered or not), writes the record `verified-{X}-{uid}` with an expiry TTL
equal to the stored `verify_ttl` of `platform:settings` when that is a number from 60 up to
2147483647 seconds; when it is a number other than zero below 60 seconds the store refuses
the write, the invocation throws and nothing is written; the hardcoded 2592000 seconds are
used when no configuration is stored or the stored `verify_ttl` is zero or `null`, and,
under the old key `verified-{uid}`, when the submission carries no routeId. -/
theorem effective_ttl_written (env : Env) (now : Int) (s : Store) (f : VerifyForm)
    (tok uid : String)
    (htok : f.token = some tok) (htok2 : tok ≠ "") (huid : f.uid = some uid) (huid2 : uid ≠ "") :
    (∀ (X : String) (c : PlatformConfig) (n : Int), f.routeId = some X → X ≠ "" →
      (s.get now ("platform:route:" ++ X) = none ∨
        ∃ rc, s.get now ("platform:route:" ++ X) = some (Val.route rc)) →
      s.get now "platform:settings" = some (Val.settings c) → c.verify_ttl = Ttl.secs n →
      60 ≤ n → n ≤ 2147483647 →
      (handleVerifySubmit env true now s f).map (fun o => o.store) =
        some (("verified-" ++ X ++ "-" ++ uid,
                { val := Val.bool true, expiration := some (now + n) }) :: s)) ∧
    (∀ (X : String) (c : PlatformConfig) (n : Int), f.routeId = some X → X ≠ "" →
      (s.get now ("platform:route:" ++ X) = none ∨
        ∃ rc, s.get now ("platform:route:" ++ X) = some (Val.route rc)) →
      s.get now "platform:settings" = some (Val.settings c) → c.verify_ttl = Ttl.secs n →
      n ≠ 0 → n < 60 →
      handleVerifySubmit env true now s f = none) ∧
    (∀ (X : String) (c : PlatformConfig), f.routeId = some X → X ≠ "" →
      (s.get now ("platform:route:" ++ X) = none ∨
        ∃ rc, s.get now ("platform:route:" ++ X) = some (Val.route rc)) →
      s.get now "platform:settings" = some (Val.settings c) →
      (c.verify_ttl = Ttl.secs 0 ∨ c.verify_ttl = Ttl.null) →
      (handleVerifySubmit env true now s f).map (fun o => o.store) =
        some (("verified-" ++ X ++ "-" ++ uid,
                { val := Val.bool true, expiration := some (now + 2592000) }) :: s)) ∧
    (∀ (X : String), f.routeId = some X → X ≠ "" →
      (s.get now ("platform:route:" ++ X) = none ∨
        ∃ rc, s.get now ("platform:route:" ++ X) = some (Val.route rc)) →
      s.get now "platform:settings" = none →
      (handleVerifySubmit env true now s f).map (fun o => o.store) =
        some (("verified-" ++ X ++ "-" ++ uid,
                { val := Val.bool true, expiration := some (now + 2592000) }) :: s)) ∧
    (truthyStr f.routeId = false →
      (handleVerifySubmit env true now s f).map (fun o => o.store) =
        some (("verified-" ++ uid,
                { val := Val.bool true, expiration := some (now + 2592000) }) :: s)) := by
  refine ⟨?_, ?_, ?_, ?_, ?_⟩
  · intro X c n hX hX2 hroute hset hc h60 hmax
    have hn : n ≠ 0 := by omega
    have httl : effectiveTtl (s.get now settingsKey) = some (JsNum.fin n) := by
      have hset2 : s.get now settingsKey = some (Val.settings c) := hset
      simp [effectiveTtl, hset2, hc, hn]
    rw [submit_with_route env now s f tok uid X _ htok htok2 huid huid2 hX hX2 hroute httl]
    have hacc : ttlAccepted n = true := by simp [ttlAccepted, h60, hmax]
    simp [Store.putTtl, hacc, Store.put, verifiedKey]
  · intro X c n hX hX2 hroute hset hc hn hlt
    have httl : effectiveTtl (s.get now settingsKey) = some (JsNum.fin n) := by
      have hset2 : s.get now settingsKey = some (Val.settings c) := hset
      simp [effectiveTtl, hset2, hc, hn]
    have hmap := submit_with_route env now s f tok uid X _ htok htok2 huid huid2 hX hX2
      hroute httl
    have hacc : ttlAccepted n = false := by
      have : ¬ (60 ≤ n) := by omega
      simp [ttlAccepted, this]
    simp only [Store.putTtl, hacc] at hmap
    cases hh : handleVerifySubmit env true now s f with
    | none => rfl
    | some o => rw [hh] at hmap; simp at hmap
  · intro X c hX hX2 hroute hset hc
    have httl : effectiveTtl (s.get now settingsKey) = some (JsNum.fin DEFAULT_TTL) := by
      have hset2 : s.get now settingsKey = some (Val.settings c) := hset
      rcases hc with hc | hc <;> simp [effectiveTtl, hset2, hc]
    rw [submit_with_route env now s f tok uid X _ htok htok2 huid huid2 hX hX2 hroute httl]
    have hacc : ttlAccepted 2592000 = true := by decide
    simp [Store.putTtl, hacc, Store.put, verifiedKey, DEFAULT_TTL]
  · intro X hX hX2 hroute hset
    have httl : effectiveTtl (s.get now settingsKey) = some (JsNum.fin DEFAULT_TTL) := by
      have hset2 : s.get now settingsKey = none := hset
      simp [effectiveTtl, hset2]
    rw [submit_with_route env now s f tok uid X _ htok htok2 huid huid2 hX hX2 hroute httl]
    have hacc : ttlAccepted 2592000 = true := by decide
    simp [Store.putTtl, hacc, Store.put, verifiedKey, DEFAULT_TTL]
  · intro hno
    cases hr : f.routeId with
    | none =>
      simp [handleVerifySubmit, htok, huid, htok2, huid2, hr, DEFAULT_TTL, Store.put,
        legacyVerifiedKey]
    | some r =>
      rw [hr] at hno
      have : r = "" := by simpa [truthyStr] using hno
      subst this
      simp [handleVerifySubmit, htok, huid, htok2, huid2, hr, DEFAULT_TTL, Store.put,
        legacyVerifiedKey]

/-- C5 amended, at a concrete input: with a stored `verify_ttl` of seven days, the record for
`(X, 555)` is written with a TTL of 604800 seconds. -/
theorem effective_ttl_written_witness :
    (handleVerifySubmit sampleEnv true 5
        (Store.put sampleStore 1 settingsKey
          (Val.settings { enable_new_users := true, verify_ttl := Ttl.secs 604800 }) none)
        (sampleForm "555" (some "X"))).map (fun o => o.store) =
      some (("verified-" ++ "X" ++ "-" ++ "555",
              { val := Val.bool true, expiration := some (5 + 604800) }) ::
        Store.put sampleStore 1 settingsKey
          (Val.settings { enable_new_users := true, verify_ttl := Ttl.secs 604800 }) none) :=
  (effective_ttl_written sampleEnv 5
    (Store.put sampleStore 1 settingsKey
      (Val.settings { enable_new_users := true, verify_ttl := Ttl.secs 604800 }) none)
    (sampleForm "555" (some "X")) "captcha" "555" rfl (by decide) rfl (by decide)).1
    "X" { enable_new_users := true, verify_ttl := Ttl.secs 604800 } 604800
    rfl (by decide) (Or.inr ⟨sampleConfig, by decide⟩) (by decide) rfl (by decide) (by decide)

/-- C6, the code at the failing input: visitor 555 is relayed on route `R1` and the copy gets
the identifier 100 in the chat of owner 42; visitor 777 is then relayed on route `R2` and the
copy gets the identifier 100 in the chat of owner 43.  Within the hour owner 42 replies on
`R1` to message 100: a plain reply is copied to 777, and a `/block` reply sets the block flag
of 777 and leaves 555 without a flag. -/
theorem cross_route_reply_misdirected :
    (crossRouteReply "the answer").map (fun o => o.calls) =
        some [Call.copyMessage "t1" "777" "42" 7 noOptions] ∧
    (crossRouteReply "/block").map (fun o => (o.store.get 3600 (blockedKey "777"),
        o.store.get 3600 (blockedKey "555"))) = some (some (Val.bool true), none) := by
  decide

/-- C7: on an existing route, a message of the owner that replies to a message identifier
with no readable correlation mapping leaves the store unchanged and is answered `Ok`; the
only calls it can make are the usage guide to the owner and the menu refresh, and those only
when its text is `/start`. -/
theorem stale_reply_dropped (copyResp : CopyResp) (fraudDb : Option String) (now : Int)
    (s : Store) (req : Request) (R : String) (c : BotConfig) (msg : Message) (m : Int)
    (hroute : s.get now (routeKey R) = some (Val.route c))
    (hcb : req.update.callback_query = none) (hmsg : req.update.message = some msg)
    (howner : toString msg.chat_id = toString c.owner_id)
    (hreply : msg.reply_to = some m)
    (habsent : s.get now (mapKey m) = none) :
    handleManagedBotWebhook copyResp fraudDb now s req R =
      some { resp := Response.ok, store := s,
             calls := if msg.text = some "/start" then
                        [Call.sendMessage c.token (toString c.owner_id) OWNER_HELP_TEXT markdown,
                         Call.setMyCommands c.token]
                      else [] } := by
  have ht : (msg.text.getD "" = "/start") ↔ msg.text = some "/start" := by
    cases hx : msg.text with
    | none => simp
    | some t => simp
  simp only [handleManagedBotWebhook, hroute, managedWithConfig, hcb, hmsg, howner, ownerMessage,
    hreply, habsent, ownerTail, if_true]
  by_cases h : msg.text = some "/start"
  · simp [h]
  · have h2 : ¬ (msg.text.getD "" = "/start") := fun e => h (ht.1 e)
    simp [h, h2]

/-- C7, at a concrete input: owner 42 replies `thanks` to message 100, for which no mapping
is stored. -/
theorem stale_reply_dropped_witness :
    handleManagedBotWebhook { ok := true, message_id := 100 } none 5 sampleStore
        (messageRequest none (textMessage 42 "thanks" (some 100))) "X" =
      some { resp := Response.ok, store := sampleStore, calls := [] } :=
  stale_reply_dropped { ok := true, message_id := 100 } none 5 sampleStore
    (messageRequest none (textMessage 42 "thanks" (some 100))) "X" sampleConfig
    (textMessage 42 "thanks" (some 100)) 100 (by decide) rfl rfl (by decide) rfl (by decide)

/-- C8, the code at the failing input: a request to the entry point of the existing route
`X`, whose stored secret is `route-secret`, with the header `wrong`, is answered `Ok`, sends
the welcome text and writes the users counter; and for every request the outcome of
`handleManagedBotWebhook` is the same whatever the secret header is. -/
theorem managed_ignores_secret :
    sampleConfig.secret ≠ "wrong" ∧
    handleManagedBotWebhook { ok := true, message_id := 100 } none 5 sampleStore
        (messageRequest (some "wrong") (textMessage 555 "/start" none)) "X" =
      some { resp := Response.ok,
             store := Store.put sampleStore 5 (usersKey "X") (Val.num 1) none,
             calls := [Call.sendMessage "bot-token" "555" DEFAULT_WELCOME markdown] } ∧
    ∀ (copyResp : CopyResp) (fraudDb : Option String) (now : Int) (s : Store) (req : Request)
      (R : String) (header : Option String),
      handleManagedBotWebhook copyResp fraudDb now s { req with secretHeader := header } R =
        handleManagedBotWebhook copyResp fraudDb now s req R := by
  refine ⟨by decide, by decide, ?_⟩
  intro copyResp fraudDb now s req R header
  rfl

/-- C9: for a message to the platform route whose text has the shape of a credential, the
handler returns, and the store it leaves is the old store extended by the route record, the
owner-to-route record and the incremented route counter exactly when the secret header is
right, `getMe` succeeded, `setWebhook` succeeded and new routes are accepted or the sender is
the administrator; in every other case the store is unchanged. -/
theorem registration_writes_on_success (env : Env) (w : World) (now : Int) (s : Store)
    (req : Request) (msg : Message) (accept : Bool)
    (hcb : req.update.callback_query = none) (hmsg : req.update.message = some msg)
    (hshape : isCredential (msg.text.getD "") = true)
    (hset : acceptsNewRoutes (s.get now settingsKey) = some accept) :
    ∃ o, handleMainBotWebhook env w now s req = some o ∧
      o.store =
        if req.secretHeader = some env.ENV_BOT_SECRET ∧ w.getMeOk = true ∧ w.setHookOk = true ∧
            (accept = true ∨ toString msg.chat_id = env.ENV_ADMIN_UID) then
          increment
            ((s.put now (routeKey w.routeId) (Val.route (newBotConfig w msg)) none).put now
              (userKey msg.chat_id) (Val.user (newBotConfig w msg) w.routeId) none)
            now totalBotsKey
        else s := by
  have hstart : msg.text.getD "" ≠ "/start" := by
    intro h
    rw [h] at hshape
    revert hshape
    decide
  by_cases hsec : req.secretHeader = some env.ENV_BOT_SECRET
  · simp only [handleMainBotWebhook, hsec, hcb, hmsg, mainMessage, hstart, hshape, register, hset]
    cases accept <;> cases hg : w.getMeOk <;> cases hh : w.setHookOk <;>
      by_cases ha : toString msg.chat_id = env.ENV_ADMIN_UID <;> simp [ha]
  · simp [handleMainBotWebhook, hsec]

/-- C9, at a concrete input: chat 7 sends a token to the platform bot, both upstream calls
succeed and no configuration is stored: the route record, the owner-to-route record and the
counter are written. -/
theorem registration_writes_on_success_witness :
    ∃ o, handleMainBotWebhook sampleEnv sampleWorld 5 []
        (messageRequest (some "platform-secret") (textMessage 7 sampleToken none)) = some o ∧
      o.store =
        [(totalBotsKey, { val := Val.num 1, expiration := none }),
         (userKey 7,
          { val := Val.user (newBotConfig sampleWorld (textMessage 7 sampleToken none)) "X",
            expiration := none }),
         (routeKey "X",
          { val := Val.route (newBotConfig sampleWorld (textMessage 7 sampleToken none)),
            expiration := none })] :=
  (registration_writes_on_success sampleEnv sampleWorld 5 []
    (messageRequest (some "platform-secret") (textMessage 7 sampleToken none))
    (textMessage 7 sampleToken none) true rfl rfl (by decide) (by decide)).imp
    (fun _ h => ⟨h.1, h.2.trans (by decide)⟩)

/-- C10: a callback query whose chat is not the owner of the route, on the route entry
point, and a callback query whose chat is not the administrator, on the platform entry point
with the right secret header, are answered `Ok` with the single acknowledgement
`answerCallbackQuery` and leave the store unchanged, whatever the callback data is. -/
theorem unauthorized_callback_no_effect (env : Env) (w : World) (copyResp : CopyResp)
    (fraudDb : Option String) (now : Int) (s : Store) (req : Request) (cq : CallbackQuery)
    (hcb : req.update.callback_query = some cq) :
    (∀ (R : String) (c : BotConfig), s.get now (routeKey R) = some (Val.route c) →
      toString cq.chat_id ≠ toString c.owner_id →
      handleManagedBotWebhook copyResp fraudDb now s req R =
        some { resp := Response.ok, store := s,
               calls := [Call.answerCallbackQuery c.token cq.id (some "无权操作") true] }) ∧
    (req.secretHeader = some env.ENV_BOT_SECRET → toString cq.chat_id ≠ env.ENV_ADMIN_UID →
      handleMainBotWebhook env w now s req =
        some { resp := Response.ok, store := s,
               calls := [Call.answerCallbackQuery env.ENV_BOT_TOKEN cq.id (some "无权操作")
                           true] }) := by
  constructor
  · intro R c hroute hne
    simp [handleManagedBotWebhook, hroute, managedWithConfig, hcb, hne]
  · intro hsec hne
    simp [handleMainBotWebhook, hsec, hcb, hne]

/-- C10, at a concrete input: chat 555, not the owner 42 of route `X`, presses `block_42`. -/
theorem unauthorized_callback_no_effect_witness :
    handleManagedBotWebhook { ok := true, message_id := 100 } none 5 sampleStore
        (callbackRequest none 555 "block_42") "X" =
      some { resp := Response.ok, store := sampleStore,
             calls := [Call.answerCallbackQuery "bot-token" "cb" (some "无权操作") true] } :=
  (unauthorized_callback_no_effect sampleEnv sampleWorld { ok := true, message_id := 100 } none
    5 sampleStore (callbackRequest none 555 "block_42")
    { id := "cb", data := "block_42", chat_id := 555, message_id := 9 } rfl).1
    "X" sampleConfig (by decide) (by decide)

/-! ## Fraud list, visitor `/start` and the TTL menu -/

/-- The first piece of a split is a leading part of the text. -/
theorem split_head_leads (c : Char) (cs p : List Char) (ps : List (List Char))
    (h : splitChars c cs = p :: ps) : p.isPrefixOf cs = true := by
  induction cs generalizing p ps with
  | nil =>
    simp [splitChars] at h
    obtain ⟨rfl, _⟩ := h
    rfl
  | cons x xs ih =>
    unfold splitChars at h
    split at h
    · simp at h
      obtain ⟨rfl, _⟩ := h
      rfl
    · split at h
      · simp at h
        obtain ⟨rfl, _⟩ := h
        simp [List.isPrefixOf]
      · rename_i q qs hq
        simp at h
        obtain ⟨rfl, _⟩ := h
        simp [List.isPrefixOf, ih q qs hq]

/-- Every piece of a split occurs in the text. -/
theorem split_piece_included (c : Char) (cs l : List Char) (h : l ∈ splitChars c cs) :
    includesChars l cs = true := by
  induction cs generalizing l with
  | nil =>
    simp [splitChars] at h
    subst h; rfl
  | cons x xs ih =>
    unfold splitChars at h
    unfold includesChars
    split at h
    · rcases List.mem_cons.1 h with h1 | h1
      · subst h1; simp [List.isPrefixOf]
      · simp [ih l h1]
    · split at h
      · simp at h
        subst h; simp [List.isPrefixOf]
      · rename_i q qs hq
        rcases List.mem_cons.1 h with h1 | h1
        · subst h1
          simp [List.isPrefixOf, split_head_leads c xs q qs hq]
        · have : l ∈ splitChars c xs := by rw [hq]; exact List.mem_cons_of_mem _ h1
          simp [ih l this]

/-- The half of the membership test that `isFraud` does get right: an id that is a whole
entry of the fetched list is reported. -/
theorem listed_is_fraud (db : String) (id : Int) (h : isListed db id = true) :
    isFraud (some db) id = true := by
  simp only [isListed, listEntries, jsSplit, List.contains_iff_exists_mem_beq] at h
  obtain ⟨e, he, hb⟩ := h
  have heq : e = toString id := by
    have h2 : toString id = e := by simpa using hb
    exact h2.symm
  rw [List.mem_map] at he
  obtain ⟨l, hl, hle⟩ := he
  have := split_piece_included _ _ _ hl
  simp only [isFraud, includes]
  rw [← heq, ← hle]
  exact this

theorem verifiedKey_ne_usersKey (r u x : String) : verifiedKey r u ≠ usersKey x := by
  intro h
  have h2 := congrArg String.data h
  simp [verifiedKey, usersKey] at h2

theorem mapKey_ne_usersKey (m : Int) (x : String) : mapKey m ≠ usersKey x := by
  intro h
  have h2 := congrArg String.data h
  simp [mapKey, usersKey] at h2

/-- The three finite choices of the TTL menu do round-trip: from a configuration that
refuses new routes, choosing 1, 7 or 30 days stores that many days in seconds, keeps
`enable_new_users`, and the dashboard and the menu show the chosen number of days. -/
theorem finite_choices_round_trip :
    [("admin_set_ttl_1", (86400 : Int), "验证有效期: 1天", "1 天"),
     ("admin_set_ttl_7", 604800, "验证有效期: 7天", "7 天"),
     ("admin_set_ttl_30", 2592000, "验证有效期: 30天", "30 天")].all
      (fun choice =>
        decide
          ((handleMainBotWebhook sampleEnv sampleWorld 5
              (Store.put [] 0 settingsKey
                (Val.settings { enable_new_users := false, verify_ttl := Ttl.secs 31536000 }) none)
              (callbackRequest (some "platform-secret") 1 choice.1)).map
              (fun o => (o.store.get 6 settingsKey,
                o.calls.map (fun call =>
                  match call with
                  | Call.editMessageText _ _ _ text _ => includes text choice.2.2.1
                  | _ => false))) =
            some (some (Val.settings { enable_new_users := false,
                                       verify_ttl := Ttl.secs choice.2.1 }),
                  [false, true]) ∧
           ttlMenuText (Ttl.secs choice.2.1) = choice.2.2.2)) = true := by
  decide

/-- C11, the code at the failing input: with the fetched list `1555`, `42` (one entry per
line), `isFraud(55)` is true because `includes` finds the text `55` inside the entry `1555`,
although 55 is not an entry of the list; the fail-open half holds, a failed fetch gives
false. -/
theorem substring_not_membership :
    isFraud (some "1555\n42") 55 = true ∧
    listEntries "1555\n42" = ["1555", "42"] ∧
    isListed "1555\n42" 55 = false ∧
    isFraud none 55 = false := by
  decide

/-- C12, refuted as stated: on route `X` whose users counter reads 9007199254740992
(2 ^ 53), a `/start` from visitor 555 leaves the counter at 9007199254740992, not at
9007199254740993: `parseInt(count) + 1` is computed in doubles. -/
theorem counter_stalls_at_two_pow_53 :
    (handleManagedBotWebhook { ok := true, message_id := 100 } none 5
        (Store.put sampleStore 1 "stats:X:users" (Val.num 9007199254740992) none)
        (messageRequest none (textMessage 555 "/start" none)) "X").map
        (fun o => (o.store.get 6 "stats:X:users", o.calls)) =
      some (some (Val.num 9007199254740992),
            [Call.sendMessage "bot-token" "555" DEFAULT_WELCOME markdown]) ∧
    (handleManagedBotWebhook { ok := true, message_id := 100 } none 5
        (Store.put sampleStore 1 "stats:X:users" (Val.num 9007199254740992) none)
        (messageRequest none (textMessage 555 "/start" none)) "X").map
        (fun o => o.store.get 6 "stats:X:users") ≠
      some (some (Val.num 9007199254740993)) := by
  decide

/-- C12, amended: on an existing route, a `/start` message from a chat that is not the owner
and is not blocked, verified or not, is answered `Ok` with the single call that sends the
welcome text to that chat, and the store it leaves is the old store with one write, to
`stats:{X}:users`: the value `n + 1` when the counter read an integer `n` from `-2 ^ 53` up
to `2 ^ 53 - 1`, the value 1 when it was absent.  Every other key, the verification records
and the correlation mappings among them, reads as before. -/
theorem visitor_start_counts (copyResp : CopyResp) (fraudDb : Option String) (now : Int)
    (s : Store) (req : Request) (X : String) (c : BotConfig) (msg : Message)
    (hroute : s.get now (routeKey X) = some (Val.route c))
    (hcb : req.update.callback_query = none) (hmsg : req.update.message = some msg)
    (hvisitor : toString msg.chat_id ≠ toString c.owner_id)
    (hfree : truthyJson (s.get now (blockedKey (toString msg.chat_id))) = some false)
    (htext : msg.text = some "/start") :
    ∃ v,
      handleManagedBotWebhook copyResp fraudDb now s req X =
        some { resp := Response.ok,
               store := ("stats:" ++ X ++ ":users", { val := v, expiration := none }) :: s,
               calls := [Call.sendMessage c.token (toString msg.chat_id)
                           (orElse c.welcome_msg DEFAULT_WELCOME) markdown] } ∧
      (∀ n, s.get now ("stats:" ++ X ++ ":users") = some (Val.num n) →
        -9007199254740992 ≤ n → n < 9007199254740992 → v = Val.num (n + 1)) ∧
      (s.get now ("stats:" ++ X ++ ":users") = none → v = Val.num 1) ∧
      (∀ later,
        Store.get (("stats:" ++ X ++ ":users", { val := v, expiration := none }) :: s) later
          ("stats:" ++ X ++ ":users") = some v) ∧
      (∀ k later, k ≠ "stats:" ++ X ++ ":users" →
        Store.get (("stats:" ++ X ++ ":users", { val := v, expiration := none }) :: s) later k =
          s.get later k) ∧
      (∀ r u later,
        Store.get (("stats:" ++ X ++ ":users", { val := v, expiration := none }) :: s) later
          ("verified-" ++ r ++ "-" ++ u) = s.get later ("verified-" ++ r ++ "-" ++ u)) ∧
      (∀ (m : Int) later,
        Store.get (("stats:" ++ X ++ ":users", { val := v, expiration := none }) :: s) later
          ("msg-map-" ++ toString m) = s.get later ("msg-map-" ++ toString m)) := by
  refine ⟨counterNext (s.get now (usersKey X)), ?_, ?_, ?_, ?_, ?_, ?_, ?_⟩
  · simp [handleManagedBotWebhook, hroute, managedWithConfig, hcb, hmsg, hvisitor,
      visitorMessage, hfree, htext, increment, Store.put, usersKey]
  · intro n hn hlo hhi
    have hn2 : s.get now (usersKey X) = some (Val.num n) := hn
    have h1 : n.natAbs ≤ 2 ^ 53 := by
      have : (2 : Nat) ^ 53 = 9007199254740992 := by norm_num
      omega
    have h2 : (n + 1).natAbs ≤ 2 ^ 53 := by
      have : (2 : Nat) ^ 53 = 9007199254740992 := by norm_num
      omega
    have h3 : n.natAbs < 10 ^ 21 := by
      have : (10 : Nat) ^ 21 = 1000000000000000000000 := by norm_num
      omega
    simp only [hn2, counterNext, storedInt, h3, if_true, toDouble_safe n h1, JsNum.add1,
      toDouble_safe (n + 1) h2, Val.ofNumber, h2]
  · intro hn
    have hn2 : s.get now (usersKey X) = none := hn
    simp [hn2, counterNext]
  · intro later
    exact get_put_forever s now later (usersKey X) _
  · intro k later hk
    exact get_put_ne s now later (usersKey X) k _ none hk
  · intro r u later
    exact get_put_ne s now later (usersKey X) _ _ none (verifiedKey_ne_usersKey r u X)
  · intro m later
    exact get_put_ne s now later (usersKey X) _ _ none (mapKey_ne_usersKey m X)

/-- C12 amended, at a concrete input: visitor 555, never verified, sends `/start` on route
`X` whose counter reads 4; the counter becomes 5. -/
theorem visitor_start_counts_witness :
    ∃ v,
      handleManagedBotWebhook { ok := true, message_id := 100 } none 5
          (Store.put sampleStore 1 (usersKey "X") (Val.num 4) none)
          (messageRequest none (textMessage 555 "/start" none)) "X" =
        some { resp := Response.ok,
               store := ("stats:" ++ "X" ++ ":users", { val := v, expiration := none }) ::
                          Store.put sampleStore 1 (usersKey "X") (Val.num 4) none,
               calls := [Call.sendMessage "bot-token" "555" DEFAULT_WELCOME markdown] } ∧
      v = Val.num 5 :=
  (visitor_start_counts { ok := true, message_id := 100 } none 5
    (Store.put sampleStore 1 (usersKey "X") (Val.num 4) none)
    (messageRequest none (textMessage 555 "/start" none)) "X" sampleConfig
    (textMessage 555 "/start" none) (by decide) rfl rfl (by decide) (by decide) rfl).imp
    (fun _ h => ⟨h.1, h.2.1 4 (by decide) (by decide) (by decide)⟩)

/-- C13, the code at the failing input: the button labelled `永久` of the TTL menu carries
the data `admin_set_ttl_365`.  When the administrator presses it, 31536000 seconds (365 days)
are stored with `enable_new_users` unchanged, and the dashboard sent back shows `365天`, not
`永久`; the TTL menu opened next shows `365 天`, not `永久`: both test `days > 365`. -/
theorem indefinite_choice_renders_365 :
    (getTTLMenuUI (Ttl.secs 2592000)).markup.flatten.contains
        { text := "永久", action := ButtonAction.callback_data "admin_set_ttl_365" } = true ∧
    (handleMainBotWebhook sampleEnv sampleWorld 0 []
        (callbackRequest (some "platform-secret") 1 "admin_set_ttl_365")).map
        (fun o => o.store.get 1 settingsKey) =
      some (some (Val.settings { enable_new_users := true, verify_ttl := Ttl.secs 31536000 })) ∧
    (handleMainBotWebhook sampleEnv sampleWorld 0 []
        (callbackRequest (some "platform-secret") 1 "admin_set_ttl_365")).map
        (fun o => o.calls.map (fun call =>
          match call with
          | Call.editMessageText _ _ _ text _ =>
            (includes text "验证有效期: 365天", includes text "永久")
          | _ => (false, false))) =
      some [(false, false), (true, false)] ∧
    ((handleMainBotWebhook sampleEnv sampleWorld 0 []
        (callbackRequest (some "platform-secret") 1 "admin_set_ttl_365")).bind (fun o =>
      (handleMainBotWebhook sampleEnv sampleWorld 1 o.store
        (callbackRequest (some "platform-secret") 1 "admin_ttl_menu")).map
        (fun o2 => o2.calls.map (fun call =>
          match call with
          | Call.editMessageText _ _ _ text _ =>
            (includes text "当前：**365 天**", includes text "永久")
          | _ => (false, false))))) =
      some [(true, false)] ∧
    ttlText (Ttl.secs 31536000) = "365天" ∧
    ttlMenuText (Ttl.secs 31536000) = "365 天" := by
  decide

end PMBot
